import Mathlib

/-!
Verification development for the NES emulator core (Go sources: `bus/bus.go`,
the CPU package with its opcode table, and the console wiring).  The Go code
is shallowly embedded: `uint8`/`uint16` values become `Nat` with explicit
`% 256` / `% 65536` where the Go arithmetic wraps, byte arrays become
functions `Nat → Nat`, and every operation that can `panic` in Go returns an
`Option` (with `none` standing for the panic, after which execution never
continues).
-/

namespace NesEmu

/-- Result of the 8-bit two's-complement sign test `value & 0b1000_0000 != 0`
from the source's `isNegative`. -/
def isNegative (value : Nat) : Bool :=
  value &&& 0x80 != 0

/-- Pointwise update of a memory function, embedding a Go array store. -/
def updateFn (f : Nat → Nat) (k v : Nat) : Nat → Nat :=
  fun a => if a = k then v else f a

/-- Cartridge data as the bus sees it: the PRG ROM bytes and their count
(`len(bus.rom.prgRom)` in Go). -/
structure Rom where
  prgRom : Nat → Nat
  prgRomSize : Nat

/-- The bus from `bus/bus.go`: the loaded ROM and the `[0xffff]uint8` memory
array backing RAM and the PPU-register window. -/
structure Bus where
  rom : Rom
  memory : Nat → Nat

/-- Embedding of `readPrgROM`: subtract the window base, and when the
cartridge PRG is 16 KiB mirror the upper half with `address % 0x4000`. -/
def Bus.readPrgROM (bus : Bus) (address : Nat) : Nat :=
  if bus.rom.prgRomSize = 0x4000 ∧ 0x4000 ≤ address then
    bus.rom.prgRom (address % 0x4000)
  else
    bus.rom.prgRom (address - 0x8000)

/-- Embedding of `Bus.MemoryRead`: RAM window masked with `0x07FF`, PPU
window masked with `0x2007`, PRG window delegated to `readPrgROM`; the
`panic` on any other address becomes `none`. -/
def Bus.MemoryRead (bus : Bus) (address : Nat) : Option Nat :=
  if address ≤ 0x1FFF then
    some (bus.memory (address &&& 0x07FF))
  else if 0x2000 ≤ address ∧ address ≤ 0x3FFF then
    some (bus.memory (address &&& 0x2007))
  else if 0x8000 ≤ address ∧ address ≤ 0xFFFF then
    some (bus.readPrgROM address)
  else
    none

/-- Embedding of `Bus.MemoryWrite`.  The Go function panics (here: `none`)
for the PRG-ROM window and for unmapped addresses before the assignment
`bus.memory[unmirroredAddress] = data` runs, so on those addresses no memory
cell is modified and no successor bus exists. -/
def Bus.MemoryWrite (bus : Bus) (address data : Nat) : Option Bus :=
  if address ≤ 0x1FFF then
    some { bus with memory := updateFn bus.memory (address &&& 0x07FF) data }
  else if 0x2000 ≤ address ∧ address ≤ 0x3FFF then
    some { bus with memory := updateFn bus.memory (address &&& 0x2007) data }
  else
    none

/-- Embedding of `Bus.MemoryReadU16`: two single-byte reads assembled little
endian; the second address wraps like the Go `uint16` increment. -/
def Bus.MemoryReadU16 (bus : Bus) (address : Nat) : Option Nat := do
  let lo ← bus.MemoryRead address
  let hi ← bus.MemoryRead ((address + 1) % 65536)
  pure (lo + 256 * hi)


/-- Addressing modes, in the order of the source's `AddressingMode` enum. -/
inductive AddressingMode where
  | Implied
  | Accumulator
  | Relative
  | Immediate
  | ZeroPage
  | ZeroPageX
  | ZeroPageY
  | Absolute
  | AbsoluteX
  | AbsoluteY
  | Indirect
  | IndirectX
  | IndirectY
  deriving DecidableEq

/-- Embedding of `getNumberOfBytesReadForOperation`; the Go switch covers
every addressing mode, so the function is total. -/
def getNumberOfBytesReadForOperation (addressingMode : AddressingMode) : Nat :=
  match addressingMode with
  | .Implied | .Accumulator => 1
  | .Relative | .Immediate | .ZeroPage | .ZeroPageX | .ZeroPageY | .IndirectX | .IndirectY => 2
  | .Indirect | .Absolute | .AbsoluteX | .AbsoluteY => 3

/-- Mnemonics of the source's `Operation` constants.  The Go type is a set of
distinct string constants used only for dispatch and tracing, so a closed
enumeration embeds it; the underscore-prefixed names are the undocumented
opcodes, as in the source. -/
inductive Operation where
  | ADC | AND | ASL | BCC | BCS | BEQ | BIT | BMI | BNE | BPL | BRK | BVC | BVS
  | CLC | CLD | CLI | CLV | CMP | CPX | CPY | DEC | DEX | DEY | EOR | INC | INX
  | INY | JMP | JSR | LDA | LDX | LDY | LSR | NOP | ORA | PHA | PHP | PLA | PLP
  | ROL | ROR | RTI | RTS | SBC | SEC | SED | SEI | STA | STX | STY | TAX | TAY
  | TSX | TXA | TXS | TYA
  | _AAC | _AAX | _ARR | _ASR | _ATX | _AXA | _AXS | _DCP | _DOP | _ISC | _KIL
  | _LAR | _LAX | _NOP | _RLA | _RRA | _SBC | _SLO | _SRE | _SXA | _SYA | _TOP
  | _XAA | _XAS
  deriving DecidableEq

/-- Record stored in the opcode table, as in the source's `OpCode` struct. -/
structure OpCode where
  operation : Operation
  addressingMode : AddressingMode
  cycles : Nat
  deriving DecidableEq

set_option maxHeartbeats 3200000 in
/-- Embedding of the `hexToOpsCode` map literal, entry for entry.  The map
covers all 256 byte values; only non-byte inputs (impossible for the Go
`uint8` key) fall through to `none`. -/
def hexToOpsCode (hexCode : Nat) : Option OpCode :=
  match hexCode with
  | 0x69 => some { operation := .ADC, addressingMode := .Immediate, cycles := 2 }
  | 0x65 => some { operation := .ADC, addressingMode := .ZeroPage, cycles := 3 }
  | 0x75 => some { operation := .ADC, addressingMode := .ZeroPageX, cycles := 4 }
  | 0x6D => some { operation := .ADC, addressingMode := .Absolute, cycles := 4 }
  | 0x7D => some { operation := .ADC, addressingMode := .AbsoluteX, cycles := 4 }
  | 0x79 => some { operation := .ADC, addressingMode := .AbsoluteY, cycles := 4 }
  | 0x61 => some { operation := .ADC, addressingMode := .IndirectX, cycles := 6 }
  | 0x71 => some { operation := .ADC, addressingMode := .IndirectY, cycles := 5 }
  | 0x29 => some { operation := .AND, addressingMode := .Immediate, cycles := 2 }
  | 0x25 => some { operation := .AND, addressingMode := .ZeroPage, cycles := 3 }
  | 0x35 => some { operation := .AND, addressingMode := .ZeroPageX, cycles := 4 }
  | 0x2D => some { operation := .AND, addressingMode := .Absolute, cycles := 4 }
  | 0x3D => some { operation := .AND, addressingMode := .AbsoluteX, cycles := 4 }
  | 0x39 => some { operation := .AND, addressingMode := .AbsoluteY, cycles := 4 }
  | 0x21 => some { operation := .AND, addressingMode := .IndirectX, cycles := 6 }
  | 0x31 => some { operation := .AND, addressingMode := .IndirectY, cycles := 5 }
  | 0x0A => some { operation := .ASL, addressingMode := .Accumulator, cycles := 2 }
  | 0x06 => some { operation := .ASL, addressingMode := .ZeroPage, cycles := 5 }
  | 0x16 => some { operation := .ASL, addressingMode := .ZeroPageX, cycles := 6 }
  | 0x0E => some { operation := .ASL, addressingMode := .Absolute, cycles := 6 }
  | 0x1E => some { operation := .ASL, addressingMode := .AbsoluteX, cycles := 7 }
  | 0x90 => some { operation := .BCC, addressingMode := .Relative, cycles := 2 }
  | 0xB0 => some { operation := .BCS, addressingMode := .Relative, cycles := 2 }
  | 0xF0 => some { operation := .BEQ, addressingMode := .Relative, cycles := 2 }
  | 0x24 => some { operation := .BIT, addressingMode := .ZeroPage, cycles := 3 }
  | 0x2C => some { operation := .BIT, addressingMode := .Absolute, cycles := 4 }
  | 0x30 => some { operation := .BMI, addressingMode := .Relative, cycles := 2 }
  | 0xD0 => some { operation := .BNE, addressingMode := .Relative, cycles := 2 }
  | 0x10 => some { operation := .BPL, addressingMode := .Relative, cycles := 2 }
  | 0x00 => some { operation := .BRK, addressingMode := .Implied, cycles := 7 }
  | 0x50 => some { operation := .BVC, addressingMode := .Relative, cycles := 2 }
  | 0x70 => some { operation := .BVS, addressingMode := .Relative, cycles := 2 }
  | 0x18 => some { operation := .CLC, addressingMode := .Implied, cycles := 2 }
  | 0xD8 => some { operation := .CLD, addressingMode := .Implied, cycles := 2 }
  | 0x58 => some { operation := .CLI, addressingMode := .Implied, cycles := 2 }
  | 0xB8 => some { operation := .CLV, addressingMode := .Implied, cycles := 2 }
  | 0xC9 => some { operation := .CMP, addressingMode := .Immediate, cycles := 2 }
  | 0xC5 => some { operation := .CMP, addressingMode := .ZeroPage, cycles := 3 }
  | 0xD5 => some { operation := .CMP, addressingMode := .ZeroPageX, cycles := 4 }
  | 0xCD => some { operation := .CMP, addressingMode := .Absolute, cycles := 4 }
  | 0xDD => some { operation := .CMP, addressingMode := .AbsoluteX, cycles := 4 }
  | 0xD9 => some { operation := .CMP, addressingMode := .AbsoluteY, cycles := 4 }
  | 0xC1 => some { operation := .CMP, addressingMode := .IndirectX, cycles := 6 }
  | 0xD1 => some { operation := .CMP, addressingMode := .IndirectY, cycles := 5 }
  | 0xE0 => some { operation := .CPX, addressingMode := .Immediate, cycles := 2 }
  | 0xE4 => some { operation := .CPX, addressingMode := .ZeroPage, cycles := 3 }
  | 0xEC => some { operation := .CPX, addressingMode := .Absolute, cycles := 4 }
  | 0xC0 => some { operation := .CPY, addressingMode := .Immediate, cycles := 2 }
  | 0xC4 => some { operation := .CPY, addressingMode := .ZeroPage, cycles := 3 }
  | 0xCC => some { operation := .CPY, addressingMode := .Absolute, cycles := 4 }
  | 0xC6 => some { operation := .DEC, addressingMode := .ZeroPage, cycles := 5 }
  | 0xD6 => some { operation := .DEC, addressingMode := .ZeroPageX, cycles := 6 }
  | 0xCE => some { operation := .DEC, addressingMode := .Absolute, cycles := 6 }
  | 0xDE => some { operation := .DEC, addressingMode := .AbsoluteX, cycles := 7 }
  | 0xCA => some { operation := .DEX, addressingMode := .Implied, cycles := 2 }
  | 0x88 => some { operation := .DEY, addressingMode := .Implied, cycles := 2 }
  | 0x49 => some { operation := .EOR, addressingMode := .Immediate, cycles := 2 }
  | 0x45 => some { operation := .EOR, addressingMode := .ZeroPage, cycles := 3 }
  | 0x55 => some { operation := .EOR, addressingMode := .ZeroPageX, cycles := 4 }
  | 0x4D => some { operation := .EOR, addressingMode := .Absolute, cycles := 4 }
  | 0x5D => some { operation := .EOR, addressingMode := .AbsoluteX, cycles := 4 }
  | 0x59 => some { operation := .EOR, addressingMode := .AbsoluteY, cycles := 4 }
  | 0x41 => some { operation := .EOR, addressingMode := .IndirectX, cycles := 6 }
  | 0x51 => some { operation := .EOR, addressingMode := .IndirectY, cycles := 5 }
  | 0xE6 => some { operation := .INC, addressingMode := .ZeroPage, cycles := 5 }
  | 0xF6 => some { operation := .INC, addressingMode := .ZeroPageX, cycles := 6 }
  | 0xEE => some { operation := .INC, addressingMode := .Absolute, cycles := 6 }
  | 0xFE => some { operation := .INC, addressingMode := .AbsoluteX, cycles := 7 }
  | 0xE8 => some { operation := .INX, addressingMode := .Implied, cycles := 2 }
  | 0xC8 => some { operation := .INY, addressingMode := .Implied, cycles := 2 }
  | 0x4C => some { operation := .JMP, addressingMode := .Absolute, cycles := 3 }
  | 0x6C => some { operation := .JMP, addressingMode := .Indirect, cycles := 5 }
  | 0x20 => some { operation := .JSR, addressingMode := .Absolute, cycles := 6 }
  | 0xA9 => some { operation := .LDA, addressingMode := .Immediate, cycles := 2 }
  | 0xA5 => some { operation := .LDA, addressingMode := .ZeroPage, cycles := 3 }
  | 0xB5 => some { operation := .LDA, addressingMode := .ZeroPageX, cycles := 4 }
  | 0xAD => some { operation := .LDA, addressingMode := .Absolute, cycles := 4 }
  | 0xBD => some { operation := .LDA, addressingMode := .AbsoluteX, cycles := 4 }
  | 0xB9 => some { operation := .LDA, addressingMode := .AbsoluteY, cycles := 4 }
  | 0xA1 => some { operation := .LDA, addressingMode := .IndirectX, cycles := 6 }
  | 0xB1 => some { operation := .LDA, addressingMode := .IndirectY, cycles := 5 }
  | 0xA2 => some { operation := .LDX, addressingMode := .Immediate, cycles := 2 }
  | 0xA6 => some { operation := .LDX, addressingMode := .ZeroPage, cycles := 3 }
  | 0xB6 => some { operation := .LDX, addressingMode := .ZeroPageY, cycles := 4 }
  | 0xAE => some { operation := .LDX, addressingMode := .Absolute, cycles := 4 }
  | 0xBE => some { operation := .LDX, addressingMode := .AbsoluteY, cycles := 4 }
  | 0xA0 => some { operation := .LDY, addressingMode := .Immediate, cycles := 2 }
  | 0xA4 => some { operation := .LDY, addressingMode := .ZeroPage, cycles := 3 }
  | 0xB4 => some { operation := .LDY, addressingMode := .ZeroPageX, cycles := 4 }
  | 0xAC => some { operation := .LDY, addressingMode := .Absolute, cycles := 4 }
  | 0xBC => some { operation := .LDY, addressingMode := .AbsoluteX, cycles := 4 }
  | 0x4A => some { operation := .LSR, addressingMode := .Accumulator, cycles := 2 }
  | 0x46 => some { operation := .LSR, addressingMode := .ZeroPage, cycles := 5 }
  | 0x56 => some { operation := .LSR, addressingMode := .ZeroPageX, cycles := 6 }
  | 0x4E => some { operation := .LSR, addressingMode := .Absolute, cycles := 6 }
  | 0x5E => some { operation := .LSR, addressingMode := .AbsoluteX, cycles := 7 }
  | 0xEA => some { operation := .NOP, addressingMode := .Implied, cycles := 2 }
  | 0x09 => some { operation := .ORA, addressingMode := .Immediate, cycles := 2 }
  | 0x05 => some { operation := .ORA, addressingMode := .ZeroPage, cycles := 3 }
  | 0x15 => some { operation := .ORA, addressingMode := .ZeroPageX, cycles := 4 }
  | 0x0D => some { operation := .ORA, addressingMode := .Absolute, cycles := 4 }
  | 0x1D => some { operation := .ORA, addressingMode := .AbsoluteX, cycles := 4 }
  | 0x19 => some { operation := .ORA, addressingMode := .AbsoluteY, cycles := 4 }
  | 0x01 => some { operation := .ORA, addressingMode := .IndirectX, cycles := 6 }
  | 0x11 => some { operation := .ORA, addressingMode := .IndirectY, cycles := 5 }
  | 0x48 => some { operation := .PHA, addressingMode := .Implied, cycles := 3 }
  | 0x08 => some { operation := .PHP, addressingMode := .Implied, cycles := 3 }
  | 0x68 => some { operation := .PLA, addressingMode := .Implied, cycles := 4 }
  | 0x28 => some { operation := .PLP, addressingMode := .Implied, cycles := 4 }
  | 0x2A => some { operation := .ROL, addressingMode := .Accumulator, cycles := 2 }
  | 0x26 => some { operation := .ROL, addressingMode := .ZeroPage, cycles := 5 }
  | 0x36 => some { operation := .ROL, addressingMode := .ZeroPageX, cycles := 6 }
  | 0x2E => some { operation := .ROL, addressingMode := .Absolute, cycles := 6 }
  | 0x3E => some { operation := .ROL, addressingMode := .AbsoluteX, cycles := 7 }
  | 0x6A => some { operation := .ROR, addressingMode := .Accumulator, cycles := 2 }
  | 0x66 => some { operation := .ROR, addressingMode := .ZeroPage, cycles := 5 }
  | 0x76 => some { operation := .ROR, addressingMode := .ZeroPageX, cycles := 6 }
  | 0x6E => some { operation := .ROR, addressingMode := .Absolute, cycles := 6 }
  | 0x7E => some { operation := .ROR, addressingMode := .AbsoluteX, cycles := 7 }
  | 0x40 => some { operation := .RTI, addressingMode := .Implied, cycles := 6 }
  | 0x60 => some { operation := .RTS, addressingMode := .Implied, cycles := 6 }
  | 0xE9 => some { operation := .SBC, addressingMode := .Immediate, cycles := 2 }
  | 0xE5 => some { operation := .SBC, addressingMode := .ZeroPage, cycles := 3 }
  | 0xF5 => some { operation := .SBC, addressingMode := .ZeroPageX, cycles := 4 }
  | 0xED => some { operation := .SBC, addressingMode := .Absolute, cycles := 4 }
  | 0xFD => some { operation := .SBC, addressingMode := .AbsoluteX, cycles := 4 }
  | 0xF9 => some { operation := .SBC, addressingMode := .AbsoluteY, cycles := 4 }
  | 0xE1 => some { operation := .SBC, addressingMode := .IndirectX, cycles := 6 }
  | 0xF1 => some { operation := .SBC, addressingMode := .IndirectY, cycles := 5 }
  | 0x38 => some { operation := .SEC, addressingMode := .Implied, cycles := 2 }
  | 0xF8 => some { operation := .SED, addressingMode := .Implied, cycles := 2 }
  | 0x78 => some { operation := .SEI, addressingMode := .Implied, cycles := 2 }
  | 0x85 => some { operation := .STA, addressingMode := .ZeroPage, cycles := 3 }
  | 0x95 => some { operation := .STA, addressingMode := .ZeroPageX, cycles := 4 }
  | 0x8D => some { operation := .STA, addressingMode := .Absolute, cycles := 4 }
  | 0x9D => some { operation := .STA, addressingMode := .AbsoluteX, cycles := 5 }
  | 0x99 => some { operation := .STA, addressingMode := .AbsoluteY, cycles := 5 }
  | 0x81 => some { operation := .STA, addressingMode := .IndirectX, cycles := 6 }
  | 0x91 => some { operation := .STA, addressingMode := .IndirectY, cycles := 6 }
  | 0x86 => some { operation := .STX, addressingMode := .ZeroPage, cycles := 3 }
  | 0x96 => some { operation := .STX, addressingMode := .ZeroPageY, cycles := 4 }
  | 0x8E => some { operation := .STX, addressingMode := .Absolute, cycles := 4 }
  | 0x84 => some { operation := .STY, addressingMode := .ZeroPage, cycles := 3 }
  | 0x94 => some { operation := .STY, addressingMode := .ZeroPageX, cycles := 4 }
  | 0x8C => some { operation := .STY, addressingMode := .Absolute, cycles := 4 }
  | 0xAA => some { operation := .TAX, addressingMode := .Implied, cycles := 2 }
  | 0xA8 => some { operation := .TAY, addressingMode := .Implied, cycles := 2 }
  | 0xBA => some { operation := .TSX, addressingMode := .Implied, cycles := 2 }
  | 0x8A => some { operation := .TXA, addressingMode := .Implied, cycles := 2 }
  | 0x9A => some { operation := .TXS, addressingMode := .Implied, cycles := 2 }
  | 0x98 => some { operation := .TYA, addressingMode := .Implied, cycles := 2 }
  | 0x0B => some { operation := ._AAC, addressingMode := .Immediate, cycles := 2 }
  | 0x2B => some { operation := ._AAC, addressingMode := .Immediate, cycles := 2 }
  | 0x87 => some { operation := ._AAX, addressingMode := .ZeroPage, cycles := 3 }
  | 0x97 => some { operation := ._AAX, addressingMode := .ZeroPageY, cycles := 4 }
  | 0x83 => some { operation := ._AAX, addressingMode := .IndirectX, cycles := 6 }
  | 0x8F => some { operation := ._AAX, addressingMode := .Absolute, cycles := 4 }
  | 0x6B => some { operation := ._ARR, addressingMode := .Immediate, cycles := 2 }
  | 0x4B => some { operation := ._ASR, addressingMode := .Immediate, cycles := 2 }
  | 0xAB => some { operation := ._ATX, addressingMode := .Immediate, cycles := 2 }
  | 0x9F => some { operation := ._AXA, addressingMode := .AbsoluteY, cycles := 5 }
  | 0x93 => some { operation := ._AXA, addressingMode := .IndirectY, cycles := 6 }
  | 0xCB => some { operation := ._AXS, addressingMode := .Immediate, cycles := 2 }
  | 0xC7 => some { operation := ._DCP, addressingMode := .ZeroPage, cycles := 5 }
  | 0xD7 => some { operation := ._DCP, addressingMode := .ZeroPageX, cycles := 6 }
  | 0xCF => some { operation := ._DCP, addressingMode := .Absolute, cycles := 6 }
  | 0xDF => some { operation := ._DCP, addressingMode := .AbsoluteX, cycles := 7 }
  | 0xDB => some { operation := ._DCP, addressingMode := .AbsoluteY, cycles := 7 }
  | 0xC3 => some { operation := ._DCP, addressingMode := .IndirectX, cycles := 8 }
  | 0xD3 => some { operation := ._DCP, addressingMode := .IndirectY, cycles := 8 }
  | 0x04 => some { operation := ._DOP, addressingMode := .ZeroPage, cycles := 3 }
  | 0x14 => some { operation := ._DOP, addressingMode := .ZeroPageX, cycles := 4 }
  | 0x34 => some { operation := ._DOP, addressingMode := .ZeroPageX, cycles := 4 }
  | 0x44 => some { operation := ._DOP, addressingMode := .ZeroPage, cycles := 3 }
  | 0x54 => some { operation := ._DOP, addressingMode := .ZeroPageX, cycles := 4 }
  | 0x64 => some { operation := ._DOP, addressingMode := .ZeroPage, cycles := 3 }
  | 0x74 => some { operation := ._DOP, addressingMode := .ZeroPageX, cycles := 4 }
  | 0x80 => some { operation := ._DOP, addressingMode := .Immediate, cycles := 2 }
  | 0x82 => some { operation := ._DOP, addressingMode := .Immediate, cycles := 2 }
  | 0x89 => some { operation := ._DOP, addressingMode := .Immediate, cycles := 2 }
  | 0xC2 => some { operation := ._DOP, addressingMode := .Immediate, cycles := 2 }
  | 0xD4 => some { operation := ._DOP, addressingMode := .ZeroPageX, cycles := 4 }
  | 0xE2 => some { operation := ._DOP, addressingMode := .Immediate, cycles := 2 }
  | 0xF4 => some { operation := ._DOP, addressingMode := .ZeroPageX, cycles := 4 }
  | 0xE7 => some { operation := ._ISC, addressingMode := .ZeroPage, cycles := 5 }
  | 0xF7 => some { operation := ._ISC, addressingMode := .ZeroPageX, cycles := 6 }
  | 0xEF => some { operation := ._ISC, addressingMode := .Absolute, cycles := 6 }
  | 0xFF => some { operation := ._ISC, addressingMode := .AbsoluteX, cycles := 7 }
  | 0xFB => some { operation := ._ISC, addressingMode := .AbsoluteY, cycles := 7 }
  | 0xE3 => some { operation := ._ISC, addressingMode := .IndirectX, cycles := 8 }
  | 0xF3 => some { operation := ._ISC, addressingMode := .IndirectY, cycles := 8 }
  | 0x02 => some { operation := ._KIL, addressingMode := .Implied, cycles := 0 }
  | 0x12 => some { operation := ._KIL, addressingMode := .Implied, cycles := 0 }
  | 0x22 => some { operation := ._KIL, addressingMode := .Implied, cycles := 0 }
  | 0x32 => some { operation := ._KIL, addressingMode := .Implied, cycles := 0 }
  | 0x42 => some { operation := ._KIL, addressingMode := .Implied, cycles := 0 }
  | 0x52 => some { operation := ._KIL, addressingMode := .Implied, cycles := 0 }
  | 0x62 => some { operation := ._KIL, addressingMode := .Implied, cycles := 0 }
  | 0x72 => some { operation := ._KIL, addressingMode := .Implied, cycles := 0 }
  | 0x92 => some { operation := ._KIL, addressingMode := .Implied, cycles := 0 }
  | 0xB2 => some { operation := ._KIL, addressingMode := .Implied, cycles := 0 }
  | 0xD2 => some { operation := ._KIL, addressingMode := .Implied, cycles := 0 }
  | 0xF2 => some { operation := ._KIL, addressingMode := .Implied, cycles := 0 }
  | 0xBB => some { operation := ._LAR, addressingMode := .AbsoluteY, cycles := 4 }
  | 0xA7 => some { operation := ._LAX, addressingMode := .ZeroPage, cycles := 3 }
  | 0xB7 => some { operation := ._LAX, addressingMode := .ZeroPageY, cycles := 4 }
  | 0xAF => some { operation := ._LAX, addressingMode := .Absolute, cycles := 4 }
  | 0xBF => some { operation := ._LAX, addressingMode := .AbsoluteY, cycles := 4 }
  | 0xA3 => some { operation := ._LAX, addressingMode := .IndirectX, cycles := 6 }
  | 0xB3 => some { operation := ._LAX, addressingMode := .IndirectY, cycles := 5 }
  | 0x1A => some { operation := ._NOP, addressingMode := .Implied, cycles := 2 }
  | 0x3A => some { operation := ._NOP, addressingMode := .Implied, cycles := 2 }
  | 0x5A => some { operation := ._NOP, addressingMode := .Implied, cycles := 2 }
  | 0x7A => some { operation := ._NOP, addressingMode := .Implied, cycles := 2 }
  | 0xDA => some { operation := ._NOP, addressingMode := .Implied, cycles := 2 }
  | 0xFA => some { operation := ._NOP, addressingMode := .Implied, cycles := 2 }
  | 0x27 => some { operation := ._RLA, addressingMode := .ZeroPage, cycles := 5 }
  | 0x37 => some { operation := ._RLA, addressingMode := .ZeroPageX, cycles := 6 }
  | 0x2F => some { operation := ._RLA, addressingMode := .Absolute, cycles := 6 }
  | 0x3F => some { operation := ._RLA, addressingMode := .AbsoluteX, cycles := 7 }
  | 0x3B => some { operation := ._RLA, addressingMode := .AbsoluteY, cycles := 7 }
  | 0x23 => some { operation := ._RLA, addressingMode := .IndirectX, cycles := 8 }
  | 0x33 => some { operation := ._RLA, addressingMode := .IndirectY, cycles := 8 }
  | 0x67 => some { operation := ._RRA, addressingMode := .ZeroPage, cycles := 5 }
  | 0x77 => some { operation := ._RRA, addressingMode := .ZeroPageX, cycles := 6 }
  | 0x6F => some { operation := ._RRA, addressingMode := .Absolute, cycles := 6 }
  | 0x7F => some { operation := ._RRA, addressingMode := .AbsoluteX, cycles := 7 }
  | 0x7B => some { operation := ._RRA, addressingMode := .AbsoluteY, cycles := 7 }
  | 0x63 => some { operation := ._RRA, addressingMode := .IndirectX, cycles := 8 }
  | 0x73 => some { operation := ._RRA, addressingMode := .IndirectY, cycles := 8 }
  | 0xEB => some { operation := ._SBC, addressingMode := .Immediate, cycles := 2 }
  | 0x07 => some { operation := ._SLO, addressingMode := .ZeroPage, cycles := 5 }
  | 0x17 => some { operation := ._SLO, addressingMode := .ZeroPageX, cycles := 6 }
  | 0x0F => some { operation := ._SLO, addressingMode := .Absolute, cycles := 6 }
  | 0x1F => some { operation := ._SLO, addressingMode := .AbsoluteX, cycles := 7 }
  | 0x1B => some { operation := ._SLO, addressingMode := .AbsoluteY, cycles := 7 }
  | 0x03 => some { operation := ._SLO, addressingMode := .IndirectX, cycles := 8 }
  | 0x13 => some { operation := ._SLO, addressingMode := .IndirectY, cycles := 8 }
  | 0x47 => some { operation := ._SRE, addressingMode := .ZeroPage, cycles := 5 }
  | 0x57 => some { operation := ._SRE, addressingMode := .ZeroPageX, cycles := 6 }
  | 0x4F => some { operation := ._SRE, addressingMode := .Absolute, cycles := 6 }
  | 0x5F => some { operation := ._SRE, addressingMode := .AbsoluteX, cycles := 7 }
  | 0x5B => some { operation := ._SRE, addressingMode := .AbsoluteY, cycles := 7 }
  | 0x43 => some { operation := ._SRE, addressingMode := .IndirectX, cycles := 8 }
  | 0x53 => some { operation := ._SRE, addressingMode := .IndirectY, cycles := 8 }
  | 0x9E => some { operation := ._SXA, addressingMode := .AbsoluteY, cycles := 5 }
  | 0x9C => some { operation := ._SYA, addressingMode := .AbsoluteX, cycles := 5 }
  | 0x0C => some { operation := ._TOP, addressingMode := .Absolute, cycles := 4 }
  | 0x1C => some { operation := ._TOP, addressingMode := .AbsoluteX, cycles := 4 }
  | 0x3C => some { operation := ._TOP, addressingMode := .AbsoluteX, cycles := 4 }
  | 0x5C => some { operation := ._TOP, addressingMode := .AbsoluteX, cycles := 4 }
  | 0x7C => some { operation := ._TOP, addressingMode := .AbsoluteX, cycles := 4 }
  | 0xDC => some { operation := ._TOP, addressingMode := .AbsoluteX, cycles := 4 }
  | 0xFC => some { operation := ._TOP, addressingMode := .AbsoluteX, cycles := 4 }
  | 0x8B => some { operation := ._XAA, addressingMode := .Immediate, cycles := 2 }
  | 0x9B => some { operation := ._XAS, addressingMode := .AbsoluteY, cycles := 5 }
  | _ => none

/-- Embedding of `matchOpHexCodeWithOpCode`: a missing table entry makes the
Go code panic, which the `none` branch represents. -/
def matchOpHexCodeWithOpCode (hexCode : Nat) : Option OpCode :=
  hexToOpsCode hexCode


/-- Base of the stack page, `STACK_BASE` in the source. -/
def STACK_BASE : Nat := 0x0100

/-- Stack pointer value installed by reset, `STACK_RESET` in the source. -/
def STACK_RESET : Nat := 0xFD

/-- The CPU register file from the source's `CPU` struct, with its bus.
Registers are bytes (`< 256`) and the program counter is 16-bit
(`< 65536`) whenever they embed a Go machine state. -/
structure CPU where
  registerA : Nat
  registerX : Nat
  registerY : Nat
  stackPointer : Nat
  statusFlags : Nat
  programCounter : Nat
  bus : Bus

/-- Carry flag bit, `0b0000_0001`. -/
def CARRY_FLAG : Nat := 0x01

/-- Zero flag bit, `0b0000_0010`. -/
def ZERO_FLAG : Nat := 0x02

/-- Interrupt-disable flag bit, `0b0000_0100`. -/
def INTERRUPT_DISABLE_FLAG : Nat := 0x04

/-- Decimal flag bit, `0b0000_1000`. -/
def DECIMAL_FLAG : Nat := 0x08

/-- Break flag bit, `0b0001_0000`. -/
def BREAK_FLAG : Nat := 0x10

/-- Second break flag bit (the always-set bit 5), `0b0010_0000`. -/
def BREAK_2_FLAG : Nat := 0x20

/-- Overflow flag bit, `0b0100_0000`. -/
def OVERFLOW_FLAG : Nat := 0x40

/-- Negative flag bit, `0b1000_0000`. -/
def NEGATIVE_FLAG : Nat := 0x80

/-- Embedding of `setFlagToValue` (current revision): bitwise OR to set the
flag, AND with the complement (`^uint8(statusFlag)`, i.e. `flag XOR 0xFF`)
to clear it. -/
def CPU.setFlagToValue (cpu : CPU) (statusFlag : Nat) (value : Bool) : CPU :=
  if value then
    { cpu with statusFlags := cpu.statusFlags ||| statusFlag }
  else
    { cpu with statusFlags := cpu.statusFlags &&& (statusFlag ^^^ 0xFF) }

/-- Embedding of `isFlagSet`. -/
def CPU.isFlagSet (cpu : CPU) (statusFlag : Nat) : Bool :=
  cpu.statusFlags &&& statusFlag != 0

/-- Embedding of `setZeroFlagAndNegativeFlagForResult`. -/
def CPU.setZeroFlagAndNegativeFlagForResult (cpu : CPU) (result : Nat) : CPU :=
  (cpu.setFlagToValue ZERO_FLAG (result == 0)).setFlagToValue NEGATIVE_FLAG (isNegative result)

/-- CPU-side read, delegating to the bus as `cpu.bus.MemoryRead` does. -/
def CPU.memoryRead (cpu : CPU) (address : Nat) : Option Nat :=
  cpu.bus.MemoryRead address

/-- CPU-side write, delegating to the bus. -/
def CPU.memoryWrite (cpu : CPU) (address data : Nat) : Option CPU :=
  (cpu.bus.MemoryWrite address data).map (fun b => { cpu with bus := b })

/-- CPU-side 16-bit read, delegating to the bus. -/
def CPU.memoryReadU16 (cpu : CPU) (address : Nat) : Option Nat :=
  cpu.bus.MemoryReadU16 address

/-- Embedding of `pushStack`: write at `STACK_BASE + SP`, then decrement the
8-bit stack pointer with wrap. -/
def CPU.pushStack (cpu : CPU) (value : Nat) : Option CPU :=
  (cpu.memoryWrite (STACK_BASE + cpu.stackPointer) value).map
    (fun c => { c with stackPointer := (c.stackPointer + 255) % 256 })

/-- Embedding of `pullStack`: increment the 8-bit stack pointer with wrap,
then read at `STACK_BASE + SP`. -/
def CPU.pullStack (cpu : CPU) : Option (Nat × CPU) :=
  let c := { cpu with stackPointer := (cpu.stackPointer + 1) % 256 }
  (c.memoryRead (STACK_BASE + c.stackPointer)).map (fun v => (v, c))

/-- Embedding of `pushStackU16`: split little endian, push the high byte,
then the low byte. -/
def CPU.pushStackU16 (cpu : CPU) (value : Nat) : Option CPU := do
  let c ← cpu.pushStack (value % 65536 / 256)
  c.pushStack (value % 256)

/-- Embedding of `pullStackU16`: pull the low byte, then the high byte. -/
def CPU.pullStackU16 (cpu : CPU) : Option (Nat × CPU) := do
  let p0 ← cpu.pullStack
  let p1 ← p0.2.pullStack
  pure (p0.1 + 256 * p1.1, p1.2)

/-- Embedding of `getOperandAddress`.  All Go `uint16` arithmetic wraps with
`% 65536` and all `uint8` index arithmetic wraps with `% 256`, exactly where
the source's conversions put them. -/
def CPU.getOperandAddress (cpu : CPU) (mode : AddressingMode) (opCodeProgramCounter : Nat) :
    Option Nat :=
  match mode with
  | .Implied => some 0
  | .Accumulator => some 0
  | .Immediate => some ((opCodeProgramCounter + 1) % 65536)
  | .Relative => do
      let offset ← cpu.memoryRead ((opCodeProgramCounter + 1) % 65536)
      if isNegative offset = false then
        pure ((opCodeProgramCounter + offset + 2) % 65536)
      else
        pure ((opCodeProgramCounter + 65536 - (0x100 - offset) + 2) % 65536)
  | .ZeroPage => cpu.memoryRead ((opCodeProgramCounter + 1) % 65536)
  | .ZeroPageX => do
      let pos ← cpu.memoryRead ((opCodeProgramCounter + 1) % 65536)
      pure ((pos + cpu.registerX) % 256)
  | .ZeroPageY => do
      let pos ← cpu.memoryRead ((opCodeProgramCounter + 1) % 65536)
      pure ((pos + cpu.registerY) % 256)
  | .Absolute => cpu.memoryReadU16 ((opCodeProgramCounter + 1) % 65536)
  | .AbsoluteX => do
      let pos ← cpu.memoryReadU16 ((opCodeProgramCounter + 1) % 65536)
      pure ((pos + cpu.registerX) % 65536)
  | .AbsoluteY => do
      let pos ← cpu.memoryReadU16 ((opCodeProgramCounter + 1) % 65536)
      pure ((pos + cpu.registerY) % 65536)
  | .Indirect => do
      let ref ← cpu.memoryReadU16 ((opCodeProgramCounter + 1) % 65536)
      if ref &&& 0x00FF = 0x00FF then
        let lo ← cpu.memoryRead ref
        let hi ← cpu.memoryRead (ref &&& 0xFF00)
        pure (lo + 256 * hi)
      else
        cpu.memoryReadU16 ref
  | .IndirectX => do
      let base ← cpu.memoryRead ((opCodeProgramCounter + 1) % 65536)
      let lo ← cpu.memoryRead ((base + cpu.registerX) % 256)
      let hi ← cpu.memoryRead ((base + cpu.registerX + 1) % 256)
      pure (lo + 256 * hi)
  | .IndirectY => do
      let base ← cpu.memoryRead ((opCodeProgramCounter + 1) % 65536)
      let lo ← cpu.memoryRead base
      let hi ← cpu.memoryRead ((base + 1) % 256)
      pure ((lo + 256 * hi + cpu.registerY) % 65536)

/-- Embedding of `addWithCarry`: 16-bit sum of the two bytes plus carry-in;
returns the truncated byte, the carry-out test `sum >> 8 != 0`, and the
signed-overflow test `(a^result) & (b^result) & 0x80 != 0`. -/
def addWithCarry (a b : Nat) (carry : Bool) : Nat × Bool × Bool :=
  let sum := a + b + (if carry then 1 else 0)
  let hasCarry := sum >>> 8 != 0
  let result := sum % 256
  let hasOverflow := (a ^^^ result) &&& (b ^^^ result) &&& 0x80 != 0
  (result, hasCarry, hasOverflow)


/-- Per-step data computed by `Run` before dispatch, the source's
`StepInfos`. -/
structure StepInfos where
  opHexCode : Nat
  opCode : OpCode
  operandAddress : Nat

/-- Embedding of `branch`: a true condition moves the program counter to the
precomputed operand address. -/
def CPU.branch (cpu : CPU) (cpuStepInfos : StepInfos) (condition : Bool) : CPU :=
  if condition then { cpu with programCounter := cpuStepInfos.operandAddress } else cpu

/-- Register-and-flag part of `adc`, applied to the byte read at the operand
address. -/
def CPU.adcOnOperand (cpu : CPU) (operand : Nat) : CPU :=
  let r := addWithCarry cpu.registerA operand (cpu.isFlagSet CARRY_FLAG)
  let c := { cpu with registerA := r.1 }
  let c := c.setFlagToValue CARRY_FLAG r.2.1
  let c := c.setFlagToValue OVERFLOW_FLAG r.2.2
  c.setZeroFlagAndNegativeFlagForResult c.registerA

/-- Embedding of `adc`. -/
def CPU.adc (cpu : CPU) (i : StepInfos) : Option CPU :=
  (cpu.memoryRead i.operandAddress).map cpu.adcOnOperand

/-- Embedding of `and`. -/
def CPU.and (cpu : CPU) (i : StepInfos) : Option CPU :=
  (cpu.memoryRead i.operandAddress).map (fun operand =>
    let c := { cpu with registerA := cpu.registerA &&& operand }
    c.setZeroFlagAndNegativeFlagForResult c.registerA)

/-- Embedding of `asl`; the Go `uint8` left shift wraps, hence `% 256`. -/
def CPU.asl (cpu : CPU) (i : StepInfos) : Option CPU :=
  if i.opCode.addressingMode = .Accumulator then
    let c := cpu.setFlagToValue CARRY_FLAG (cpu.registerA &&& 0x80 != 0)
    let c := { c with registerA := (c.registerA <<< 1) % 256 }
    some (c.setZeroFlagAndNegativeFlagForResult c.registerA)
  else do
    let operand ← cpu.memoryRead i.operandAddress
    let c := cpu.setFlagToValue CARRY_FLAG (operand &&& 0x80 != 0)
    let result := (operand <<< 1) % 256
    let c ← c.memoryWrite i.operandAddress result
    pure (c.setZeroFlagAndNegativeFlagForResult result)

/-- Embedding of `bcc`. -/
def CPU.bcc (cpu : CPU) (i : StepInfos) : Option CPU :=
  some (cpu.branch i (!cpu.isFlagSet CARRY_FLAG))

/-- Embedding of `bcs`. -/
def CPU.bcs (cpu : CPU) (i : StepInfos) : Option CPU :=
  some (cpu.branch i (cpu.isFlagSet CARRY_FLAG))

/-- Embedding of `beq`. -/
def CPU.beq (cpu : CPU) (i : StepInfos) : Option CPU :=
  some (cpu.branch i (cpu.isFlagSet ZERO_FLAG))

/-- Embedding of `bit`: Z from `A AND M`, N from bit 7 of `M`, V from bit 6
of `M`. -/
def CPU.bit (cpu : CPU) (i : StepInfos) : Option CPU :=
  (cpu.memoryRead i.operandAddress).map (fun operand =>
    let result := operand &&& cpu.registerA
    let c := cpu.setFlagToValue ZERO_FLAG (result == 0)
    let c := c.setFlagToValue NEGATIVE_FLAG (isNegative operand)
    c.setFlagToValue OVERFLOW_FLAG (operand &&& 0x40 != 0))

/-- Embedding of `bmi`. -/
def CPU.bmi (cpu : CPU) (i : StepInfos) : Option CPU :=
  some (cpu.branch i (cpu.isFlagSet NEGATIVE_FLAG))

/-- Embedding of `bne`. -/
def CPU.bne (cpu : CPU) (i : StepInfos) : Option CPU :=
  some (cpu.branch i (!cpu.isFlagSet ZERO_FLAG))

/-- Embedding of `bpl`. -/
def CPU.bpl (cpu : CPU) (i : StepInfos) : Option CPU :=
  some (cpu.branch i (!cpu.isFlagSet NEGATIVE_FLAG))

/-- Embedding of `bvc`. -/
def CPU.bvc (cpu : CPU) (i : StepInfos) : Option CPU :=
  some (cpu.branch i (!cpu.isFlagSet OVERFLOW_FLAG))

/-- Embedding of `bvs`. -/
def CPU.bvs (cpu : CPU) (i : StepInfos) : Option CPU :=
  some (cpu.branch i (cpu.isFlagSet OVERFLOW_FLAG))

/-- Embedding of `clc`. -/
def CPU.clc (cpu : CPU) (_i : StepInfos) : Option CPU :=
  some (cpu.setFlagToValue CARRY_FLAG false)

/-- Embedding of `cld`. -/
def CPU.cld (cpu : CPU) (_i : StepInfos) : Option CPU :=
  some (cpu.setFlagToValue DECIMAL_FLAG false)

/-- Embedding of `cli`. -/
def CPU.cli (cpu : CPU) (_i : StepInfos) : Option CPU :=
  some (cpu.setFlagToValue INTERRUPT_DISABLE_FLAG false)

/-- Embedding of `clv`. -/
def CPU.clv (cpu : CPU) (_i : StepInfos) : Option CPU :=
  some (cpu.setFlagToValue OVERFLOW_FLAG false)

/-- Embedding of `compare`: the wrapping `uint8` difference drives Z and N,
and C records `compareWith >= operand`. -/
def CPU.compare (cpu : CPU) (i : StepInfos) (compareWith : Nat) : Option CPU :=
  (cpu.memoryRead i.operandAddress).map (fun operand =>
    let result := (compareWith + 256 - operand) % 256
    let c := cpu.setZeroFlagAndNegativeFlagForResult result
    c.setFlagToValue CARRY_FLAG (decide (operand ≤ compareWith)))

/-- Embedding of `cmp`. -/
def CPU.cmp (cpu : CPU) (i : StepInfos) : Option CPU :=
  cpu.compare i cpu.registerA

/-- Embedding of `cpx`. -/
def CPU.cpx (cpu : CPU) (i : StepInfos) : Option CPU :=
  cpu.compare i cpu.registerX

/-- Embedding of `cpy`. -/
def CPU.cpy (cpu : CPU) (i : StepInfos) : Option CPU :=
  cpu.compare i cpu.registerY

/-- Embedding of `dec`; `operand - 1` on `uint8` wraps, hence `+ 255`. -/
def CPU.dec (cpu : CPU) (i : StepInfos) : Option CPU := do
  let operand ← cpu.memoryRead i.operandAddress
  let result := (operand + 255) % 256
  let c ← cpu.memoryWrite i.operandAddress result
  pure (c.setZeroFlagAndNegativeFlagForResult result)

/-- Embedding of `dex`. -/
def CPU.dex (cpu : CPU) (_i : StepInfos) : Option CPU :=
  let c := { cpu with registerX := (cpu.registerX + 255) % 256 }
  some (c.setZeroFlagAndNegativeFlagForResult c.registerX)

/-- Embedding of `dey`. -/
def CPU.dey (cpu : CPU) (_i : StepInfos) : Option CPU :=
  let c := { cpu with registerY := (cpu.registerY + 255) % 256 }
  some (c.setZeroFlagAndNegativeFlagForResult c.registerY)

/-- Embedding of `eor`. -/
def CPU.eor (cpu : CPU) (i : StepInfos) : Option CPU :=
  (cpu.memoryRead i.operandAddress).map (fun operand =>
    let c := { cpu with registerA := cpu.registerA ^^^ operand }
    c.setZeroFlagAndNegativeFlagForResult c.registerA)

/-- Embedding of `inc`. -/
def CPU.inc (cpu : CPU) (i : StepInfos) : Option CPU := do
  let operand ← cpu.memoryRead i.operandAddress
  let result := (operand + 1) % 256
  let c ← cpu.memoryWrite i.operandAddress result
  pure (c.setZeroFlagAndNegativeFlagForResult result)

/-- Embedding of `inx`. -/
def CPU.inx (cpu : CPU) (_i : StepInfos) : Option CPU :=
  let c := { cpu with registerX := (cpu.registerX + 1) % 256 }
  some (c.setZeroFlagAndNegativeFlagForResult c.registerX)

/-- Embedding of `iny`. -/
def CPU.iny (cpu : CPU) (_i : StepInfos) : Option CPU :=
  let c := { cpu with registerY := (cpu.registerY + 1) % 256 }
  some (c.setZeroFlagAndNegativeFlagForResult c.registerY)

/-- Embedding of `jmp`. -/
def CPU.jmp (cpu : CPU) (i : StepInfos) : Option CPU :=
  some { cpu with programCounter := i.operandAddress }

/-- Embedding of `jsr`: push `PC + instruction_size - 1`, then jump. -/
def CPU.jsr (cpu : CPU) (i : StepInfos) : Option CPU := do
  let c ← cpu.pushStackU16
    ((cpu.programCounter + getNumberOfBytesReadForOperation i.opCode.addressingMode - 1) % 65536)
  pure { c with programCounter := i.operandAddress }

/-- Embedding of `lda`. -/
def CPU.lda (cpu : CPU) (i : StepInfos) : Option CPU :=
  (cpu.memoryRead i.operandAddress).map (fun operand =>
    let c := { cpu with registerA := operand }
    c.setZeroFlagAndNegativeFlagForResult c.registerA)

/-- Embedding of `ldx`. -/
def CPU.ldx (cpu : CPU) (i : StepInfos) : Option CPU :=
  (cpu.memoryRead i.operandAddress).map (fun operand =>
    let c := { cpu with registerX := operand }
    c.setZeroFlagAndNegativeFlagForResult c.registerX)

/-- Embedding of `ldy`. -/
def CPU.ldy (cpu : CPU) (i : StepInfos) : Option CPU :=
  (cpu.memoryRead i.operandAddress).map (fun operand =>
    let c := { cpu with registerY := operand }
    c.setZeroFlagAndNegativeFlagForResult c.registerY)

/-- Embedding of `lsr`. -/
def CPU.lsr (cpu : CPU) (i : StepInfos) : Option CPU :=
  if i.opCode.addressingMode = .Accumulator then
    let c := cpu.setFlagToValue CARRY_FLAG (cpu.registerA &&& 0x01 != 0)
    let c := { c with registerA := c.registerA >>> 1 }
    some (c.setZeroFlagAndNegativeFlagForResult c.registerA)
  else do
    let operand ← cpu.memoryRead i.operandAddress
    let c := cpu.setFlagToValue CARRY_FLAG (operand &&& 0x01 != 0)
    let result := operand >>> 1
    let c ← c.memoryWrite i.operandAddress result
    pure (c.setZeroFlagAndNegativeFlagForResult result)

/-- Embedding of `nop`. -/
def CPU.nop (cpu : CPU) (_i : StepInfos) : Option CPU :=
  some cpu

/-- Embedding of `ora`. -/
def CPU.ora (cpu : CPU) (i : StepInfos) : Option CPU :=
  (cpu.memoryRead i.operandAddress).map (fun operand =>
    let c := { cpu with registerA := cpu.registerA ||| operand }
    c.setZeroFlagAndNegativeFlagForResult c.registerA)

/-- Embedding of `pha`. -/
def CPU.pha (cpu : CPU) (_i : StepInfos) : Option CPU :=
  cpu.pushStack cpu.registerA

/-- Embedding of `php` (current revision): push `P` with both break bits
forced on, leaving the running `P` untouched. -/
def CPU.php (cpu : CPU) (_i : StepInfos) : Option CPU :=
  cpu.pushStack (cpu.statusFlags ||| BREAK_FLAG ||| BREAK_2_FLAG)

/-- Embedding of `pla`. -/
def CPU.pla (cpu : CPU) (_i : StepInfos) : Option CPU :=
  cpu.pullStack.map (fun p =>
    let c := { p.2 with registerA := p.1 }
    c.setZeroFlagAndNegativeFlagForResult c.registerA)

/-- Embedding of `plp` (current revision): install the pulled byte, then
force the B flag clear and bit 5 set. -/
def CPU.plp (cpu : CPU) (_i : StepInfos) : Option CPU :=
  cpu.pullStack.map (fun p =>
    let c := { p.2 with statusFlags := p.1 }
    let c := c.setFlagToValue BREAK_FLAG false
    c.setFlagToValue BREAK_2_FLAG true)

/-- Embedding of `rol`. -/
def CPU.rol (cpu : CPU) (i : StepInfos) : Option CPU :=
  let carryMask : Nat := if cpu.isFlagSet CARRY_FLAG then 0x01 else 0x00
  if i.opCode.addressingMode = .Accumulator then
    let c := cpu.setFlagToValue CARRY_FLAG (cpu.registerA &&& 0x80 != 0)
    let c := { c with registerA := ((c.registerA <<< 1) % 256) ||| carryMask }
    some (c.setZeroFlagAndNegativeFlagForResult c.registerA)
  else do
    let operand ← cpu.memoryRead i.operandAddress
    let c := cpu.setFlagToValue CARRY_FLAG (operand &&& 0x80 != 0)
    let result := ((operand <<< 1) % 256) ||| carryMask
    let c ← c.memoryWrite i.operandAddress result
    pure (c.setZeroFlagAndNegativeFlagForResult result)

/-- Embedding of `ror`. -/
def CPU.ror (cpu : CPU) (i : StepInfos) : Option CPU :=
  let carryMask : Nat := if cpu.isFlagSet CARRY_FLAG then 0x80 else 0x00
  if i.opCode.addressingMode = .Accumulator then
    let c := cpu.setFlagToValue CARRY_FLAG (cpu.registerA &&& 0x01 != 0)
    let c := { c with registerA := (c.registerA >>> 1) ||| carryMask }
    some (c.setZeroFlagAndNegativeFlagForResult c.registerA)
  else do
    let operand ← cpu.memoryRead i.operandAddress
    let c := cpu.setFlagToValue CARRY_FLAG (operand &&& 0x01 != 0)
    let result := (operand >>> 1) ||| carryMask
    let c ← c.memoryWrite i.operandAddress result
    pure (c.setZeroFlagAndNegativeFlagForResult result)

/-- Embedding of `rti`: pull `P` with the PLP break-bit rules, then pull the
program counter. -/
def CPU.rti (cpu : CPU) (_i : StepInfos) : Option CPU := do
  let p ← cpu.pullStack
  let c := { p.2 with statusFlags := p.1 }
  let c := c.setFlagToValue BREAK_FLAG false
  let c := c.setFlagToValue BREAK_2_FLAG true
  let q ← c.pullStackU16
  pure { q.2 with programCounter := q.1 }

/-- Embedding of `rts`: pull a 16-bit address and resume one past it. -/
def CPU.rts (cpu : CPU) (_i : StepInfos) : Option CPU := do
  let q ← cpu.pullStackU16
  pure { q.2 with programCounter := (q.1 + 1) % 65536 }

/-- Register-and-flag part of `sbc`, applied to the byte read at the operand
address: `A + (255 - M) + C`, as the source comment derives. -/
def CPU.sbcOnOperand (cpu : CPU) (operand : Nat) : CPU :=
  let r := addWithCarry cpu.registerA (255 - operand) (cpu.isFlagSet CARRY_FLAG)
  let c := { cpu with registerA := r.1 }
  let c := c.setFlagToValue CARRY_FLAG r.2.1
  let c := c.setFlagToValue OVERFLOW_FLAG r.2.2
  c.setZeroFlagAndNegativeFlagForResult c.registerA

/-- Embedding of `sbc`. -/
def CPU.sbc (cpu : CPU) (i : StepInfos) : Option CPU :=
  (cpu.memoryRead i.operandAddress).map cpu.sbcOnOperand

/-- Embedding of `sec`. -/
def CPU.sec (cpu : CPU) (_i : StepInfos) : Option CPU :=
  some (cpu.setFlagToValue CARRY_FLAG true)

/-- Embedding of `sed`. -/
def CPU.sed (cpu : CPU) (_i : StepInfos) : Option CPU :=
  some (cpu.setFlagToValue DECIMAL_FLAG true)

/-- Embedding of `sei`. -/
def CPU.sei (cpu : CPU) (_i : StepInfos) : Option CPU :=
  some (cpu.setFlagToValue INTERRUPT_DISABLE_FLAG true)

/-- Embedding of `sta`. -/
def CPU.sta (cpu : CPU) (i : StepInfos) : Option CPU :=
  cpu.memoryWrite i.operandAddress cpu.registerA

/-- Embedding of `stx`. -/
def CPU.stx (cpu : CPU) (i : StepInfos) : Option CPU :=
  cpu.memoryWrite i.operandAddress cpu.registerX

/-- Embedding of `sty`. -/
def CPU.sty (cpu : CPU) (i : StepInfos) : Option CPU :=
  cpu.memoryWrite i.operandAddress cpu.registerY

/-- Embedding of `tax`. -/
def CPU.tax (cpu : CPU) (_i : StepInfos) : Option CPU :=
  let c := { cpu with registerX := cpu.registerA }
  some (c.setZeroFlagAndNegativeFlagForResult c.registerX)

/-- Embedding of `tay`. -/
def CPU.tay (cpu : CPU) (_i : StepInfos) : Option CPU :=
  let c := { cpu with registerY := cpu.registerA }
  some (c.setZeroFlagAndNegativeFlagForResult c.registerY)

/-- Embedding of `tsx`. -/
def CPU.tsx (cpu : CPU) (_i : StepInfos) : Option CPU :=
  let c := { cpu with registerX := cpu.stackPointer }
  some (c.setZeroFlagAndNegativeFlagForResult c.registerX)

/-- Embedding of `txa`. -/
def CPU.txa (cpu : CPU) (_i : StepInfos) : Option CPU :=
  let c := { cpu with registerA := cpu.registerX }
  some (c.setZeroFlagAndNegativeFlagForResult c.registerA)

/-- Embedding of `txs`; no flags are touched. -/
def CPU.txs (cpu : CPU) (_i : StepInfos) : Option CPU :=
  some { cpu with stackPointer := cpu.registerX }

/-- Embedding of `tya`. -/
def CPU.tya (cpu : CPU) (_i : StepInfos) : Option CPU :=
  let c := { cpu with registerA := cpu.registerY }
  some (c.setZeroFlagAndNegativeFlagForResult c.registerA)

/-- Embedding of the undocumented `aac`. -/
def CPU.aac (cpu : CPU) (i : StepInfos) : Option CPU :=
  (cpu.memoryRead i.operandAddress).map (fun operand =>
    let result := operand &&& cpu.registerA
    let c := cpu.setZeroFlagAndNegativeFlagForResult result
    c.setFlagToValue CARRY_FLAG (isNegative result))

/-- Embedding of the undocumented `aax`. -/
def CPU.aax (cpu : CPU) (i : StepInfos) : Option CPU :=
  cpu.memoryWrite i.operandAddress (cpu.registerA &&& cpu.registerX)

/-- Embedding of the undocumented `arr`, bit for bit as in the source
(including its `& 0x10 == 1` and `& 0x20 == 1` comparisons). -/
def CPU.arr (cpu : CPU) (i : StepInfos) : Option CPU :=
  (cpu.memoryRead i.operandAddress).map (fun operand =>
    let carryMask : Nat := if cpu.isFlagSet CARRY_FLAG then 0x80 else 0x00
    let c := { cpu with registerA := ((operand &&& cpu.registerA) >>> 1) ||| carryMask }
    let c := c.setZeroFlagAndNegativeFlagForResult c.registerA
    let c := c.setFlagToValue CARRY_FLAG (c.registerA &&& 0x01 != 0)
    let isBit5Set := c.registerA &&& 0x10 == 1
    let isBit6Set := c.registerA &&& 0x20 == 1
    let c := c.setFlagToValue CARRY_FLAG isBit6Set
    c.setFlagToValue OVERFLOW_FLAG (isBit6Set != isBit5Set))

/-- Embedding of the undocumented `asr`. -/
def CPU.asr (cpu : CPU) (i : StepInfos) : Option CPU :=
  (cpu.memoryRead i.operandAddress).map (fun operand =>
    let c := { cpu with registerA := operand &&& cpu.registerA }
    let c := c.setFlagToValue CARRY_FLAG (c.registerA &&& 0x01 != 0)
    let c := { c with registerA := c.registerA >>> 1 }
    c.setZeroFlagAndNegativeFlagForResult c.registerA)

/-- Embedding of the undocumented `atx`. -/
def CPU.atx (cpu : CPU) (i : StepInfos) : Option CPU :=
  (cpu.memoryRead i.operandAddress).map (fun operand =>
    let c := { cpu with registerA := operand &&& cpu.registerA }
    let c := { c with registerX := c.registerA }
    c.setZeroFlagAndNegativeFlagForResult c.registerX)

/-- Embedding of the undocumented `axa`. -/
def CPU.axa (cpu : CPU) (i : StepInfos) : Option CPU :=
  cpu.memoryWrite i.operandAddress
    (cpu.registerA &&& cpu.registerX &&& ((i.operandAddress >>> 8) % 256))

/-- Embedding of the undocumented `axs`: two consecutive stores to the same
address, A first, X second. -/
def CPU.axs (cpu : CPU) (i : StepInfos) : Option CPU := do
  let c ← cpu.memoryWrite i.operandAddress cpu.registerA
  c.memoryWrite i.operandAddress c.registerX

/-- Embedding of the undocumented `dcp`: decrement memory, then compare with
A (re-reading the decremented byte). -/
def CPU.dcp (cpu : CPU) (i : StepInfos) : Option CPU := do
  let operand ← cpu.memoryRead i.operandAddress
  let c ← cpu.memoryWrite i.operandAddress ((operand + 255) % 256)
  c.compare i c.registerA

/-- Embedding of the undocumented `dop` (double no-op). -/
def CPU.dop (cpu : CPU) (_i : StepInfos) : Option CPU :=
  some cpu

/-- Embedding of the undocumented `isc`: increment memory, then subtract it
from A with the SBC rules. -/
def CPU.isc (cpu : CPU) (i : StepInfos) : Option CPU := do
  let operand ← cpu.memoryRead i.operandAddress
  let result := (operand + 1) % 256
  let c ← cpu.memoryWrite i.operandAddress result
  let r := addWithCarry c.registerA (255 - result) (c.isFlagSet CARRY_FLAG)
  let c := { c with registerA := r.1 }
  let c := c.setFlagToValue CARRY_FLAG r.2.1
  let c := c.setFlagToValue OVERFLOW_FLAG r.2.2
  pure (c.setZeroFlagAndNegativeFlagForResult c.registerA)

/-- Embedding of the undocumented `kil`: the source panics. -/
def CPU.kil (_cpu : CPU) (_i : StepInfos) : Option CPU :=
  none

/-- Embedding of the undocumented `lar`. -/
def CPU.lar (cpu : CPU) (i : StepInfos) : Option CPU :=
  (cpu.memoryRead i.operandAddress).map (fun operand =>
    let result := operand &&& cpu.stackPointer
    let c := { cpu with registerA := result, registerX := result, stackPointer := result }
    c.setZeroFlagAndNegativeFlagForResult result)

/-- Embedding of the undocumented `lax`. -/
def CPU.lax (cpu : CPU) (i : StepInfos) : Option CPU :=
  (cpu.memoryRead i.operandAddress).map (fun operand =>
    let c := { cpu with registerA := operand }
    let c := { c with registerX := c.registerA }
    c.setZeroFlagAndNegativeFlagForResult c.registerX)

/-- Embedding of the undocumented `rla`. -/
def CPU.rla (cpu : CPU) (i : StepInfos) : Option CPU := do
  let carryMask : Nat := if cpu.isFlagSet CARRY_FLAG then 0x01 else 0x00
  let operand ← cpu.memoryRead i.operandAddress
  let c := cpu.setFlagToValue CARRY_FLAG (operand &&& 0x80 != 0)
  let result := ((operand <<< 1) % 256) ||| carryMask
  let c ← c.memoryWrite i.operandAddress result
  let c := { c with registerA := result &&& c.registerA }
  pure (c.setZeroFlagAndNegativeFlagForResult c.registerA)

/-- Embedding of the undocumented `rra`. -/
def CPU.rra (cpu : CPU) (i : StepInfos) : Option CPU := do
  let carryMask : Nat := if cpu.isFlagSet CARRY_FLAG then 0x80 else 0x00
  let operand ← cpu.memoryRead i.operandAddress
  let c := cpu.setFlagToValue CARRY_FLAG (operand &&& 0x01 != 0)
  let result := (operand >>> 1) ||| carryMask
  let c ← c.memoryWrite i.operandAddress result
  let c := c.setZeroFlagAndNegativeFlagForResult result
  let r := addWithCarry c.registerA result (c.isFlagSet CARRY_FLAG)
  let c := { c with registerA := r.1 }
  let c := c.setFlagToValue CARRY_FLAG r.2.1
  let c := c.setFlagToValue OVERFLOW_FLAG r.2.2
  pure (c.setZeroFlagAndNegativeFlagForResult c.registerA)

/-- Embedding of the undocumented `slo`. -/
def CPU.slo (cpu : CPU) (i : StepInfos) : Option CPU := do
  let operand ← cpu.memoryRead i.operandAddress
  let c := cpu.setFlagToValue CARRY_FLAG (operand &&& 0x80 != 0)
  let result := (operand <<< 1) % 256
  let c ← c.memoryWrite i.operandAddress result
  let c := { c with registerA := result ||| c.registerA }
  pure (c.setZeroFlagAndNegativeFlagForResult c.registerA)

/-- Embedding of the undocumented `sre`. -/
def CPU.sre (cpu : CPU) (i : StepInfos) : Option CPU := do
  let operand ← cpu.memoryRead i.operandAddress
  let c := cpu.setFlagToValue CARRY_FLAG (operand &&& 0x01 != 0)
  let result := operand >>> 1
  let c ← c.memoryWrite i.operandAddress result
  let c := { c with registerA := c.registerA ^^^ result }
  pure (c.setZeroFlagAndNegativeFlagForResult c.registerA)

/-- Embedding of the undocumented `sxa`. -/
def CPU.sxa (cpu : CPU) (i : StepInfos) : Option CPU :=
  cpu.memoryWrite i.operandAddress
    ((((i.operandAddress >>> 8) % 256 + 1) % 256) &&& cpu.registerX)

/-- Embedding of the undocumented `sya`. -/
def CPU.sya (cpu : CPU) (i : StepInfos) : Option CPU :=
  cpu.memoryWrite i.operandAddress
    ((((i.operandAddress >>> 8) % 256 + 1) % 256) &&& cpu.registerY)

/-- Embedding of the undocumented `top` (triple no-op). -/
def CPU.top (cpu : CPU) (_i : StepInfos) : Option CPU :=
  some cpu

/-- Embedding of the undocumented `xaa`: the source panics. -/
def CPU.xaa (_cpu : CPU) (_i : StepInfos) : Option CPU :=
  none

/-- Embedding of the undocumented `xas`. -/
def CPU.xas (cpu : CPU) (i : StepInfos) : Option CPU :=
  let c := { cpu with stackPointer := cpu.registerA &&& cpu.registerX }
  c.memoryWrite i.operandAddress
    ((((i.operandAddress >>> 8) % 256 + 1) % 256) &&& c.stackPointer)


/-- Memory reads performed by `printCPUState`, which `Run` calls before every
dispatch.  The printer reads the two bytes after the opcode unconditionally,
and for the data addressing modes additionally reads the operand byte (for
Absolute only when the operation is not JMP or JSR); any of these reads can
hit an unmapped address and kill the program, so a faithful step must

perform them. -/
def traceMemoryReads (cpu : CPU) (i : StepInfos) : Option Unit := do
  let _ ← cpu.memoryRead ((cpu.programCounter + 1) % 65536)
  let _ ← cpu.memoryRead ((cpu.programCounter + 2) % 65536)
  match i.opCode.addressingMode with
  | .ZeroPage | .ZeroPageX | .ZeroPageY | .AbsoluteX | .AbsoluteY | .IndirectX | .IndirectY =>
      let _ ← cpu.memoryRead i.operandAddress
      pure ()
  | .Absolute =>
      if i.opCode.operation = .JMP ∨ i.opCode.operation = .JSR then
        pure ()
      else do
        let _ ← cpu.memoryRead i.operandAddress
        pure ()
  | _ => pure ()

/-- Dispatch of `Run`'s switch over the decoded operation.  BRK is handled by
`step` (the Go `case BRK: return`), so its arm here is never invoked there;
KIL and XAA panic in the source and yield `none`. -/
def executeOpCode (cpu : CPU) (i : StepInfos) : Option CPU :=
  match i.opCode.operation with
  | .ADC => cpu.adc i
  | .AND => cpu.and i
  | .ASL => cpu.asl i
  | .BCC => cpu.bcc i
  | .BCS => cpu.bcs i
  | .BEQ => cpu.beq i
  | .BIT => cpu.bit i
  | .BMI => cpu.bmi i
  | .BNE => cpu.bne i
  | .BPL => cpu.bpl i
  | .BRK => some cpu
  | .BVS => cpu.bvs i
  | .BVC => cpu.bvc i
  | .CLC => cpu.clc i
  | .CLD => cpu.cld i
  | .CLI => cpu.cli i
  | .CLV => cpu.clv i
  | .CMP => cpu.cmp i
  | .CPX => cpu.cpx i
  | .CPY => cpu.cpy i
  | .DEC => cpu.dec i
  | .DEX => cpu.dex i
  | .DEY => cpu.dey i
  | .EOR => cpu.eor i
  | .INC => cpu.inc i
  | .INX => cpu.inx i
  | .INY => cpu.iny i
  | .JMP => cpu.jmp i
  | .JSR => cpu.jsr i
  | .LDA => cpu.lda i
  | .LDX => cpu.ldx i
  | .LDY => cpu.ldy i
  | .LSR => cpu.lsr i
  | .NOP => cpu.nop i
  | .ORA => cpu.ora i
  | .PHA => cpu.pha i
  | .PHP => cpu.php i
  | .PLA => cpu.pla i
  | .PLP => cpu.plp i
  | .ROL => cpu.rol i
  | .ROR => cpu.ror i
  | .RTI => cpu.rti i
  | .RTS => cpu.rts i
  | .SBC => cpu.sbc i
  | .SEC => cpu.sec i
  | .SED => cpu.sed i
  | .SEI => cpu.sei i
  | .STA => cpu.sta i
  | .STX => cpu.stx i
  | .STY => cpu.sty i
  | .TAX => cpu.tax i
  | .TAY => cpu.tay i
  | .TSX => cpu.tsx i
  | .TXA => cpu.txa i
  | .TXS => cpu.txs i
  | .TYA => cpu.tya i
  | ._AAC => cpu.aac i
  | ._AAX => cpu.aax i
  | ._ARR => cpu.arr i
  | ._ASR => cpu.asr i
  | ._ATX => cpu.atx i
  | ._AXA => cpu.axa i
  | ._AXS => cpu.axs i
  | ._DCP => cpu.dcp i
  | ._DOP => cpu.dop i
  | ._ISC => cpu.isc i
  | ._KIL => cpu.kil i
  | ._LAR => cpu.lar i
  | ._LAX => cpu.lax i
  | ._NOP => cpu.nop i
  | ._RLA => cpu.rla i
  | ._RRA => cpu.rra i
  | ._SBC => cpu.sbc i
  | ._SLO => cpu.slo i
  | ._SRE => cpu.sre i
  | ._SXA => cpu.sxa i
  | ._SYA => cpu.sya i
  | ._TOP => cpu.top i
  | ._XAA => cpu.xaa i
  | ._XAS => cpu.xas i

/-- Outcome of one iteration of `Run`'s loop: a successor state, a graceful
halt on BRK, or a fatal panic. -/
inductive StepOutcome where
  | next : CPU → StepOutcome
  | halted : CPU → StepOutcome
  | fatal : StepOutcome

/-- One iteration of `Run`: fetch the opcode byte, decode it, resolve the
operand address, perform the trace reads, dispatch (BRK returns from the
loop), and advance the program counter by the instruction size when the
semantics left it unmoved. -/
def step (cpu : CPU) : StepOutcome :=
  match cpu.memoryRead cpu.programCounter with
  | none => .fatal
  | some opHexCode =>
    match matchOpHexCodeWithOpCode opHexCode with
    | none => .fatal
    | some opCode =>
      match cpu.getOperandAddress opCode.addressingMode cpu.programCounter with
      | none => .fatal
      | some operandAddress =>
        let stepInfos : StepInfos :=
          { opHexCode := opHexCode, opCode := opCode, operandAddress := operandAddress }
        match traceMemoryReads cpu stepInfos with
        | none => .fatal
        | some _ =>
          if opCode.operation = .BRK then
            .halted cpu
          else
            match executeOpCode cpu stepInfos with
            | none => .fatal
            | some c =>
              if cpu.programCounter = c.programCounter then
                .next { c with programCounter :=
                  (c.programCounter + getNumberOfBytesReadForOperation opCode.addressingMode) % 65536 }
              else
                .next c

/-- Embedding of `Reset`: clear the registers, set `P = 0x24` and
`SP = 0xFD`, and install the nestest entry point `0xC000`. -/
def CPU.Reset (cpu : CPU) : CPU :=
  { cpu with registerA := 0, registerX := 0, registerY := 0,
             statusFlags := 0x24, stackPointer := STACK_RESET, programCounter := 0xC000 }

/-- States the run loop can put the machine in, starting from `start`:
iterating `step` through its non-halting outcomes. -/
inductive Reachable (start : CPU) : CPU → Prop where
  | base : Reachable start start
  | trans {c c' : CPU} : Reachable start c → step c = .next c' → Reachable start c'

/-- Program counter of a successor step outcome, used to state concrete
step results without comparing whole machine states. -/
def stepPC (r : StepOutcome) : Option Nat :=
  match r with
  | .next c => some c.programCounter
  | .halted c => some c.programCounter
  | .fatal => none


/-- A concrete 16 KiB cartridge with all-zero contents, for witnesses. -/
def rom0 : Rom := { prgRom := fun _ => 0, prgRomSize := 0x4000 }

/-- A concrete bus with zeroed RAM over `rom0`, for witnesses. -/
def bus0 : Bus := { rom := rom0, memory := fun _ => 0 }

/-- A concrete machine over `bus0` with post-reset register values, for
witnesses. -/
def cpu0 : CPU :=
  { registerA := 0, registerX := 0, registerY := 0, stackPointer := 0xFD,
    statusFlags := 0x24, programCounter := 0, bus := bus0 }

/-- C1: for the Indirect mode of JMP, a pointer whose low byte is `0xFF` has
its target's high byte fetched from the beginning of the same page
(`ptr & 0xFF00`), while any other pointer yields the little-endian word
stored at the pointer. -/
theorem jmp_indirect_page_wrap_bug (cpu : CPU) (pc ref : Nat)
    (href : cpu.memoryReadU16 ((pc + 1) % 65536) = some ref) :
    (ref &&& 0x00FF = 0x00FF →
      ∀ lo hi, cpu.memoryRead ref = some lo → cpu.memoryRead (ref &&& 0xFF00) = some hi →
        cpu.getOperandAddress .Indirect pc = some (lo + 256 * hi)) ∧
    (ref &&& 0x00FF ≠ 0x00FF →
      cpu.getOperandAddress .Indirect pc = cpu.memoryReadU16 ref) := by
  constructor
  · intro hlow lo hi hlo hhi
    simp [CPU.getOperandAddress, href, hlow, hlo, hhi]
  · intro hlow
    simp [CPU.getOperandAddress, href, hlow]

/-- Machine realizing the spec's JMP-indirect scenario: pointer `0x30FF`
stored at `0x0011/0x0012`, `0x34` at the PPU-mirrored image of `0x30FF` and
`0x78` at the image of `0x3000`. -/
def cpuC1 : CPU :=
  { cpu0 with bus := { rom := rom0, memory := fun a =>
      if a = 0x11 then 0xFF else if a = 0x12 then 0x30 else
      if a = 0x2007 then 0x34 else if a = 0x2000 then 0x78 else 0 } }

/-- Witness for C1: on `cpuC1` the indirect target of a JMP at `0x0010` is
`0x7834`, the high byte coming from `0x3000` rather than `0x3100`. -/
theorem jmp_indirect_page_wrap_bug_witness :
    cpuC1.getOperandAddress .Indirect 0x10 = some 0x7834 ∧ (0x30FF : Nat) &&& 0x00FF = 0x00FF :=
  ⟨(jmp_indirect_page_wrap_bug cpuC1 0x10 0x30FF (by rfl)).1 (by rfl) 0x34 0x78 (by rfl) (by rfl),
   by rfl⟩

set_option maxRecDepth 100000 in
/-- C2: for every accumulator, operand byte and carry, SBC produces exactly
the machine ADC produces on the bitwise-complemented operand
(`A + (M XOR 0xFF) + C`), flags included; the full state equality implies
equality of the accumulator and of the C, V, N and Z flags. -/
theorem sbc_is_adc_of_complemented_operand (cpu : CPU) (m : Nat) (hm : m < 256) :
    cpu.sbcOnOperand m = cpu.adcOnOperand (m ^^^ 0xFF) ∧
    ∀ i : StepInfos, cpu.memoryRead i.operandAddress = some m →
      cpu.sbc i = some (cpu.adcOnOperand (m ^^^ 0xFF)) := by
  have key : ∀ n : Fin 256, 255 - n.1 = n.1 ^^^ 255 := by decide
  have h1 : cpu.sbcOnOperand m = cpu.adcOnOperand (m ^^^ 0xFF) := by
    unfold CPU.sbcOnOperand CPU.adcOnOperand
    rw [key ⟨m, hm⟩]
  refine ⟨h1, fun i hi => ?_⟩
  unfold CPU.sbc
  rw [hi, Option.map_some', h1]

/-- Witness for C2 at a concrete operand. -/
theorem sbc_is_adc_of_complemented_operand_witness :
    cpu0.sbcOnOperand 3 = cpu0.adcOnOperand (3 ^^^ 0xFF) :=
  (sbc_is_adc_of_complemented_operand cpu0 3 (by decide)).1

set_option maxRecDepth 1000000 in
/-- C4: `setFlagToValue` (current revision) writes exactly the requested
boolean into the requested flag bit and leaves every other status bit
untouched, whatever the previous state; in particular writing `false` into a
clear flag keeps it clear. -/
theorem setFlagToValue_set_clear_semantics (cpu : CPU) (f : Nat)
    (hf : f = CARRY_FLAG ∨ f = ZERO_FLAG ∨ f = INTERRUPT_DISABLE_FLAG ∨ f = DECIMAL_FLAG ∨
      f = BREAK_FLAG ∨ f = BREAK_2_FLAG ∨ f = OVERFLOW_FLAG ∨ f = NEGATIVE_FLAG)
    (v : Bool) (hs : cpu.statusFlags < 256) (j : Nat) (hj : j < 8) :
    ((cpu.setFlagToValue f v).statusFlags).testBit j =
      if Nat.testBit f j then v else cpu.statusFlags.testBit j := by
  have key : ∀ s : Fin 256, ∀ k : Fin 8, ∀ w : Bool, ∀ b : Fin 8,
      (if w then s.1 ||| 2 ^ k.1 else s.1 &&& (2 ^ k.1 ^^^ 255)).testBit b.1 =
        (if Nat.testBit (2 ^ k.1) b.1 then w else s.1.testBit b.1) := by decide
  have hsf : (cpu.setFlagToValue f v).statusFlags =
      if v then cpu.statusFlags ||| f else cpu.statusFlags &&& (f ^^^ 255) := by
    unfold CPU.setFlagToValue
    cases v <;> simp
  rw [hsf]
  rcases hf with rfl | rfl | rfl | rfl | rfl | rfl | rfl | rfl
  · exact key ⟨cpu.statusFlags, hs⟩ ⟨0, by decide⟩ v ⟨j, hj⟩
  · exact key ⟨cpu.statusFlags, hs⟩ ⟨1, by decide⟩ v ⟨j, hj⟩
  · exact key ⟨cpu.statusFlags, hs⟩ ⟨2, by decide⟩ v ⟨j, hj⟩
  · exact key ⟨cpu.statusFlags, hs⟩ ⟨3, by decide⟩ v ⟨j, hj⟩
  · exact key ⟨cpu.statusFlags, hs⟩ ⟨4, by decide⟩ v ⟨j, hj⟩
  · exact key ⟨cpu.statusFlags, hs⟩ ⟨5, by decide⟩ v ⟨j, hj⟩
  · exact key ⟨cpu.statusFlags, hs⟩ ⟨6, by decide⟩ v ⟨j, hj⟩
  · exact key ⟨cpu.statusFlags, hs⟩ ⟨7, by decide⟩ v ⟨j, hj⟩

/-- Witness for C4: clearing the already-clear zero flag of the reset status
keeps it clear. -/
theorem setFlagToValue_set_clear_semantics_witness :
    ((cpu0.setFlagToValue ZERO_FLAG false).statusFlags).testBit 1 =
      if Nat.testBit ZERO_FLAG 1 then false else cpu0.statusFlags.testBit 1 :=
  setFlagToValue_set_clear_semantics cpu0 ZERO_FLAG (Or.inr (Or.inl rfl)) false
    (by decide) 1 (by decide)

/-- C7: through the bus, a 16 KiB cartridge serves the PRG byte at
`addr % 0x4000` (so `0xC000 + k` mirrors `0x8000 + k`), and a 32 KiB
cartridge serves the byte at `addr - 0x8000`. -/
theorem prg_rom_windowing (bus : Bus) :
    (bus.rom.prgRomSize = 0x4000 →
      (∀ a, 0x8000 ≤ a → a ≤ 0xFFFF →
        bus.MemoryRead a = some (bus.rom.prgRom (a % 0x4000))) ∧
      (∀ k, k < 0x4000 →
        bus.MemoryRead (0xC000 + k) = bus.MemoryRead (0x8000 + k))) ∧
    (bus.rom.prgRomSize = 0x8000 →
      ∀ a, 0x8000 ≤ a → a ≤ 0xFFFF →
        bus.MemoryRead a = some (bus.rom.prgRom (a - 0x8000))) := by
  have hread : ∀ a, 0x8000 ≤ a → a ≤ 0xFFFF →
      bus.MemoryRead a = some (bus.readPrgROM a) := by
    intro a h1 h2
    simp only [Bus.MemoryRead]
    rw [if_neg (by omega), if_neg (by omega), if_pos ⟨h1, h2⟩]
  refine ⟨fun h16 => ⟨fun a h1 h2 => ?_, fun k hk => ?_⟩, fun h32 a h1 h2 => ?_⟩
  · rw [hread a h1 h2]
    simp only [Bus.readPrgROM]
    rw [if_pos ⟨h16, by omega⟩]
  · rw [hread (0xC000 + k) (by omega) (by omega), hread (0x8000 + k) (by omega) (by omega)]
    simp only [Bus.readPrgROM]
    rw [if_pos ⟨h16, by omega⟩, if_pos ⟨h16, by omega⟩]
    have harith : (0xC000 + k) % 0x4000 = (0x8000 + k) % 0x4000 := by omega
    rw [harith]
  · rw [hread a h1 h2]
    simp only [Bus.readPrgROM]
    rw [if_neg (by rw [h32]; simp)]

/-- A 16 KiB cartridge holding `0xAA` at PRG offset 0, for the C7 witness. -/
def busAA : Bus :=
  { rom := { prgRom := fun a => if a = 0 then 0xAA else 0, prgRomSize := 0x4000 },
    memory := fun _ => 0 }

/-- Witness for C7: on `busAA`, reading `0xC000` equals reading `0x8000`,
and both return `0xAA`. -/
theorem prg_rom_windowing_witness :
    busAA.MemoryRead 0xC000 = busAA.MemoryRead 0x8000 ∧ busAA.MemoryRead 0x8000 = some 0xAA := by
  have h := ((prg_rom_windowing busAA).1 (by rfl)).2 0 (by decide)
  constructor
  · simpa using h
  · exact ((prg_rom_windowing busAA).1 (by rfl)).1 0x8000 (by decide) (by decide)

/-- C9: writes into the PRG-ROM window and any access to the unmapped
`0x4000-0x7FFF` region produce no successor bus (the Go panic fires before
the memory assignment, so no byte is modified), and a fetched opcode byte
with no table entry makes the step fatal. -/
theorem fatal_prg_write_unmapped_access_unknown_opcode :
    (∀ (bus : Bus) (a v : Nat), 0x8000 ≤ a → a ≤ 0xFFFF → bus.MemoryWrite a v = none) ∧
    (∀ (bus : Bus) (a : Nat), 0x4000 ≤ a → a ≤ 0x7FFF →
      bus.MemoryRead a = none ∧ ∀ v, bus.MemoryWrite a v = none) ∧
    (∀ (cpu : CPU) (hex : Nat), cpu.memoryRead cpu.programCounter = some hex →
      matchOpHexCodeWithOpCode hex = none → step cpu = .fatal) := by
  refine ⟨fun bus a v h1 h2 => ?_, fun bus a h1 h2 => ⟨?_, fun v => ?_⟩, fun cpu hex hfetch hdec => ?_⟩
  · simp only [Bus.MemoryWrite]
    rw [if_neg (by omega), if_neg (by omega)]
  · simp only [Bus.MemoryRead]
    rw [if_neg (by omega), if_neg (by omega), if_neg (by omega)]
  · simp only [Bus.MemoryWrite]
    rw [if_neg (by omega), if_neg (by omega)]
  · simp only [step, hfetch, hdec]

/-- Machine whose memory yields a value with no opcode-table entry, for the
C9 witness; the Go `uint8` type makes every real fetch hit the table, so the
missing-entry branch only fires for such out-of-range values. -/
def cpuJunk : CPU :=
  { cpu0 with bus := { rom := rom0, memory := fun _ => 999 } }

/-- Witness for C9: a PRG-ROM write, an unmapped read and an unknown-opcode
fetch all fail. -/
theorem fatal_prg_write_unmapped_access_unknown_opcode_witness :
    bus0.MemoryWrite 0x9000 7 = none ∧ bus0.MemoryRead 0x5000 = none ∧ step cpuJunk = .fatal :=
  ⟨fatal_prg_write_unmapped_access_unknown_opcode.1 bus0 0x9000 7 (by decide) (by decide),
   (fatal_prg_write_unmapped_access_unknown_opcode.2.1 bus0 0x5000 (by decide) (by decide)).1,
   fatal_prg_write_unmapped_access_unknown_opcode.2.2 cpuJunk 999 (by rfl) (by rfl)⟩

/-- C10: the PPU-register window is plain backing memory mirrored every 8
bytes: a write to `a` followed by a read of any `a'` in the window with the
same mirrored image returns the written byte. -/
theorem ppu_window_write_read_roundtrip (bus : Bus) (a a2 v : Nat)
    (ha1 : 0x2000 ≤ a) (ha2 : a ≤ 0x3FFF) (hb1 : 0x2000 ≤ a2) (hb2 : a2 ≤ 0x3FFF)
    (hmask : a &&& 0x2007 = a2 &&& 0x2007) :
    (bus.MemoryWrite a v).bind (fun b => b.MemoryRead a2) = some v := by
  simp only [Bus.MemoryWrite]
  rw [if_neg (by omega), if_pos ⟨ha1, ha2⟩]
  simp only [Option.some_bind, Bus.MemoryRead]
  rw [if_neg (by omega), if_pos ⟨hb1, hb2⟩]
  simp [updateFn, hmask]

/-- Witness for C10: write `7` at `0x2005`, read it back at the mirror
`0x3005`. -/
theorem ppu_window_write_read_roundtrip_witness :
    (bus0.MemoryWrite 0x2005 7).bind (fun b => b.MemoryRead 0x3005) = some 7 :=
  ppu_window_write_read_roundtrip bus0 0x2005 0x3005 7
    (by decide) (by decide) (by decide) (by decide) (by decide)


/-- Masking with `0x07FF` is the identity below `0x0800`. -/
lemma and2047_eq (a : Nat) (h : a < 2048) : a &&& 2047 = a := by
  have h2 := Nat.and_pow_two_sub_one_eq_mod a 11
  norm_num at h2
  rw [h2, Nat.mod_eq_of_lt h]

/-- Reads inside the RAM window below the mirror region are plain array
reads. -/
lemma ram_read (bus : Bus) (a : Nat) (h : a < 2048) :
    bus.MemoryRead a = some (bus.memory a) := by
  unfold Bus.MemoryRead
  rw [if_pos (by omega), and2047_eq a h]

/-- Writes inside the RAM window below the mirror region are plain array
stores. -/
lemma ram_write (bus : Bus) (a v : Nat) (h : a < 2048) :
    bus.MemoryWrite a v = some { bus with memory := updateFn bus.memory a v } := by
  unfold Bus.MemoryWrite
  rw [if_pos (by omega), and2047_eq a h]

/-- Explicit form of a successful `pushStack`: the stack slot is written and
the stack pointer decrements with 8-bit wrap. -/
lemma pushStack_eq (cpu : CPU) (v : Nat) (hsp : cpu.stackPointer < 256) :
    cpu.pushStack v = some
      { cpu with
          bus := { cpu.bus with memory := updateFn cpu.bus.memory (256 + cpu.stackPointer) v },
          stackPointer := (cpu.stackPointer + 255) % 256 } := by
  unfold CPU.pushStack CPU.memoryWrite STACK_BASE
  rw [ram_write cpu.bus (256 + cpu.stackPointer) v (by omega)]
  rfl

/-- Explicit form of a successful `pullStack`: increment the pointer, read
the slot. -/
lemma pullStack_eq (cpu : CPU) (hsp : cpu.stackPointer < 256) :
    cpu.pullStack = some (cpu.bus.memory (256 + (cpu.stackPointer + 1) % 256),
      { cpu with stackPointer := (cpu.stackPointer + 1) % 256 }) := by
  unfold CPU.pullStack CPU.memoryRead STACK_BASE
  simp only []
  rw [ram_read cpu.bus (256 + (cpu.stackPointer + 1) % 256) (by omega)]
  rfl

/-- Monadic bind of a present optional value reduces to an application. -/
lemma bind_some_eq {a b : Type} (x : a) (f : a → Option b) : some x >>= f = f x := rfl

/-- Explicit form of `pushStackU16` on a 16-bit value: high byte at the
current slot, low byte one below, stack pointer down by two with wrap. -/
lemma pushStackU16_eq (cpu : CPU) (v : Nat) (hsp : cpu.stackPointer < 256) (hv : v < 65536) :
    cpu.pushStackU16 v = some
      { cpu with
          bus := { cpu.bus with memory :=
            (updateFn (updateFn cpu.bus.memory (256 + cpu.stackPointer) (v / 256))
              (256 + (cpu.stackPointer + 255) % 256) (v % 256)) },
          stackPointer := (cpu.stackPointer + 254) % 256 } := by
  unfold CPU.pushStackU16
  have hv65 : v % 65536 = v := Nat.mod_eq_of_lt hv
  rw [hv65, pushStack_eq cpu _ hsp]
  simp only [bind_some_eq]
  rw [pushStack_eq _ _ (show (cpu.stackPointer + 255) % 256 < 256 from Nat.mod_lt _ (by omega))]
  have hsp2 : ((cpu.stackPointer + 255) % 256 + 255) % 256 = (cpu.stackPointer + 254) % 256 := by
    omega
  simp [hsp2]

/-- Explicit form of `pullStackU16`: stack reads always hit mapped RAM, so
the pull succeeds and reassembles the two bytes little endian. -/
lemma pullStackU16_eq (cpu : CPU) (hsp : cpu.stackPointer < 256) :
    cpu.pullStackU16 = some
      (cpu.bus.memory (256 + (cpu.stackPointer + 1) % 256) +
         256 * cpu.bus.memory (256 + (cpu.stackPointer + 2) % 256),
       { cpu with stackPointer := (cpu.stackPointer + 2) % 256 }) := by
  unfold CPU.pullStackU16
  rw [pullStack_eq cpu hsp]
  simp only [bind_some_eq]
  rw [pullStack_eq _ (show ({ cpu with stackPointer := (cpu.stackPointer + 1) % 256 } :
    CPU).stackPointer < 256 from Nat.mod_lt _ (by omega))]
  simp only [bind_some_eq]
  have h2 : ((cpu.stackPointer + 1) % 256 + 1) % 256 = (cpu.stackPointer + 2) % 256 := by omega
  simp [h2]

/-- Pulling 16 bits from the state produced by a 16-bit push returns the
pushed value and restores the stack pointer; stated for any state sharing
the pushed bus and stack pointer so it also covers the jump executed by JSR
between the push and the pull. -/
lemma pullU16_of_pushed (cpu c2 : CPU) (v : Nat) (hsp : cpu.stackPointer < 256) (hv : v < 65536)
    (hbus : c2.bus = { cpu.bus with memory :=
      (updateFn (updateFn cpu.bus.memory (256 + cpu.stackPointer) (v / 256))
        (256 + (cpu.stackPointer + 255) % 256) (v % 256)) })
    (hsp2 : c2.stackPointer = (cpu.stackPointer + 254) % 256) :
    c2.pullStackU16 = some (v, { c2 with stackPointer := cpu.stackPointer }) := by
  rw [pullStackU16_eq c2 (by rw [hsp2]; exact Nat.mod_lt _ (by omega)), hbus, hsp2]
  have e1 : ((cpu.stackPointer + 254) % 256 + 1) % 256 = (cpu.stackPointer + 255) % 256 := by
    omega
  have e2 : ((cpu.stackPointer + 254) % 256 + 2) % 256 = cpu.stackPointer := by omega
  simp only [e1, e2]
  have hne2 : 256 + cpu.stackPointer ≠ 256 + (cpu.stackPointer + 255) % 256 := by omega
  have hval : v % 256 + 256 * (v / 256) = v := by omega
  simp [updateFn, hne2, hval]


set_option maxRecDepth 1000000 in
/-- C3: PHP pushes `P` with both break bits (bits 4 and 5) forced on while
leaving the running status register (and other registers) unchanged, and PLP
installs the pulled byte with bit 5 forced set and bit 4 forced clear, for
every prior status value and stack content. -/
theorem php_plp_break_bits (cpu : CPU) (i : StepInfos)
    (hsp : cpu.stackPointer < 256) (hs : cpu.statusFlags < 256) :
    ((cpu.php i).map (fun c => (c.statusFlags, c.registerA, c.stackPointer))) =
        some (cpu.statusFlags, cpu.registerA, (cpu.stackPointer + 255) % 256) ∧
    ((cpu.php i).bind (fun c => c.memoryRead (STACK_BASE + cpu.stackPointer))) =
        some (cpu.statusFlags ||| BREAK_FLAG ||| BREAK_2_FLAG) ∧
    (∀ j, j < 8 → (cpu.statusFlags ||| BREAK_FLAG ||| BREAK_2_FLAG).testBit j =
        if j = 4 ∨ j = 5 then true else cpu.statusFlags.testBit j) ∧
    (∀ b, b < 256 → cpu.memoryRead (STACK_BASE + (cpu.stackPointer + 1) % 256) = some b →
      ((cpu.plp i).map CPU.statusFlags) =
          some ((b &&& (BREAK_FLAG ^^^ 0xFF)) ||| BREAK_2_FLAG) ∧
      ∀ j, j < 8 → ((b &&& (BREAK_FLAG ^^^ 0xFF)) ||| BREAK_2_FLAG).testBit j =
          if j = 5 then true else if j = 4 then false else b.testBit j) := by
  have hSB : STACK_BASE = 256 := rfl
  have hphp : cpu.php i = cpu.pushStack (cpu.statusFlags ||| BREAK_FLAG ||| BREAK_2_FLAG) := rfl
  refine ⟨?_, ?_, ?_, ?_⟩
  · rw [hphp, pushStack_eq cpu _ hsp]
    rfl
  · rw [hphp, pushStack_eq cpu _ hsp]
    simp only [Option.some_bind, CPU.memoryRead]
    rw [ram_read _ _ (by rw [hSB]; omega)]
    simp [updateFn, hSB]
  · intro j hj
    have key : ∀ s : Fin 256, ∀ b : Fin 8,
        ((s.1 ||| BREAK_FLAG) ||| BREAK_2_FLAG).testBit b.1 =
          if b.1 = 4 ∨ b.1 = 5 then true else s.1.testBit b.1 := by decide
    exact key ⟨cpu.statusFlags, hs⟩ ⟨j, hj⟩
  · intro b hb hread
    have hmem : cpu.bus.memory (256 + (cpu.stackPointer + 1) % 256) = b := by
      have h1 : cpu.memoryRead (STACK_BASE + (cpu.stackPointer + 1) % 256) =
          some (cpu.bus.memory (256 + (cpu.stackPointer + 1) % 256)) := by
        simp only [CPU.memoryRead, hSB]
        exact ram_read cpu.bus _ (by omega)
      rw [h1] at hread
      exact Option.some_inj.mp hread
    constructor
    · have hplp : cpu.plp i = cpu.pullStack.map (fun p =>
          ((({ p.2 with statusFlags := p.1 } : CPU).setFlagToValue BREAK_FLAG
            false).setFlagToValue BREAK_2_FLAG true)) := rfl
      rw [hplp, pullStack_eq cpu hsp, hmem]
      simp [CPU.setFlagToValue]
    · intro j hj
      have key2 : ∀ bb : Fin 256, ∀ c : Fin 8,
          ((bb.1 &&& (BREAK_FLAG ^^^ 0xFF)) ||| BREAK_2_FLAG).testBit c.1 =
            if c.1 = 5 then true else if c.1 = 4 then false else bb.1.testBit c.1 := by decide
      exact key2 ⟨b, hb⟩ ⟨j, hj⟩

/-- Concrete step data naming PHP, for witnesses; the stack operations never
consult it. -/
def i0 : StepInfos :=
  { opHexCode := 0x08, opCode := { operation := .PHP, addressingMode := .Implied, cycles := 3 },
    operandAddress := 0 }

/-- Witness for C3 on the post-reset machine: PHP stores `P | 0x30` and PLP
of a zero byte yields `0x20`. -/
theorem php_plp_break_bits_witness :
    ((cpu0.php i0).bind (fun c => c.memoryRead (STACK_BASE + cpu0.stackPointer))) =
      some (cpu0.statusFlags ||| BREAK_FLAG ||| BREAK_2_FLAG) ∧
    ((cpu0.plp i0).map CPU.statusFlags) =
      some ((0 &&& (BREAK_FLAG ^^^ 0xFF)) ||| BREAK_2_FLAG) :=
  ⟨(php_plp_break_bits cpu0 i0 (by decide) (by decide)).2.1,
   ((php_plp_break_bits cpu0 i0 (by decide) (by decide)).2.2.2 0 (by decide) (by rfl)).1⟩

/-- Concrete step data naming JSR with Absolute addressing, for witnesses. -/
def iJsr : StepInfos :=
  { opHexCode := 0x20, opCode := { operation := .JSR, addressingMode := .Absolute, cycles := 6 },
    operandAddress := 0x8005 }

/-- C6: a 16-bit push followed by a 16-bit pull returns the pushed value and
restores the stack pointer, and consequently JSR followed by RTS (with the
pushed return address still on top of the stack) resumes at the JSR's
address plus 3. -/
theorem push_pull_roundtrip_and_jsr_rts :
    (∀ (cpu : CPU) (v : Nat), cpu.stackPointer < 256 → v < 65536 →
      ((cpu.pushStackU16 v).bind CPU.pullStackU16).map (fun p => (p.1, p.2.stackPointer)) =
        some (v, cpu.stackPointer)) ∧
    (∀ (cpu : CPU) (i : StepInfos), cpu.stackPointer < 256 →
      i.opCode.addressingMode = .Absolute →
      ((cpu.jsr i).bind (fun c => c.rts i)).map CPU.programCounter =
        some ((cpu.programCounter + 3) % 65536)) := by
  constructor
  · intro cpu v hsp hv
    rw [pushStackU16_eq cpu v hsp hv]
    simp only [Option.some_bind]
    rw [pullU16_of_pushed cpu _ v hsp hv (by rfl) (by rfl)]
    rfl
  · intro cpu i hsp hmode
    unfold CPU.jsr
    rw [hmode]
    have harg : cpu.programCounter + getNumberOfBytesReadForOperation AddressingMode.Absolute - 1 =
        cpu.programCounter + 2 := by
      simp [getNumberOfBytesReadForOperation]
    rw [harg]
    rw [pushStackU16_eq cpu _ hsp (Nat.mod_lt _ (by omega))]
    simp only [bind_some_eq, Option.pure_def, Option.some_bind]
    unfold CPU.rts
    rw [pullU16_of_pushed cpu _ ((cpu.programCounter + 2) % 65536) hsp
      (Nat.mod_lt _ (by omega)) (by rfl) (by rfl)]
    simp only [bind_some_eq, Option.map_some']
    have hfin : ((cpu.programCounter + 2) % 65536 + 1) % 65536 =
        (cpu.programCounter + 3) % 65536 := by omega
    simp [hfin]

/-- Witness for C6: concrete round trip of `0x1234` on the reset stack and a
JSR/RTS pair at `PC = 0`. -/
theorem push_pull_roundtrip_and_jsr_rts_witness :
    ((cpu0.pushStackU16 0x1234).bind CPU.pullStackU16).map (fun p => (p.1, p.2.stackPointer)) =
      some (0x1234, cpu0.stackPointer) ∧
    ((cpu0.jsr iJsr).bind (fun c => c.rts iJsr)).map CPU.programCounter =
      some ((cpu0.programCounter + 3) % 65536) :=
  ⟨push_pull_roundtrip_and_jsr_rts.1 cpu0 0x1234 (by decide) (by decide),
   push_pull_roundtrip_and_jsr_rts.2 cpu0 iJsr (by decide) (by rfl)⟩


/-- Relative-mode target as the source computes it: `PC + 2` plus the offset
byte taken as a signed 8-bit value (the `0x100 - offset` idiom with `uint16`
wrap). -/
def relTarget (pc off : Nat) : Nat :=
  if isNegative off = false then (pc + off + 2) % 65536
  else (pc + 65536 - (0x100 - off) + 2) % 65536

/-- Relative addressing resolves to `relTarget` of the offset byte. -/
lemma getOperandAddress_relative (cpu : CPU) (pc off : Nat)
    (h : cpu.memoryRead ((pc + 1) % 65536) = some off) :
    cpu.getOperandAddress .Relative pc = some (relTarget pc off) := by
  simp only [CPU.getOperandAddress, relTarget, h, Option.some_bind, bind_some_eq]
  split <;> rfl

/-- Branch condition tested by each of the eight branch opcodes, read off
the dispatch arms `bcc` through `bvs`. -/
def branchTakenHex (hexCode : Nat) (cpu : CPU) : Bool :=
  match hexCode with
  | 0x90 => !cpu.isFlagSet CARRY_FLAG
  | 0xB0 => cpu.isFlagSet CARRY_FLAG
  | 0xF0 => cpu.isFlagSet ZERO_FLAG
  | 0xD0 => !cpu.isFlagSet ZERO_FLAG
  | 0x30 => cpu.isFlagSet NEGATIVE_FLAG
  | 0x10 => !cpu.isFlagSet NEGATIVE_FLAG
  | 0x50 => !cpu.isFlagSet OVERFLOW_FLAG
  | 0x70 => cpu.isFlagSet OVERFLOW_FLAG
  | _ => false

/-- Shared shape of one step executing a branch instruction: the post-step
program counter is the Relative target when the branch is taken and the
target moves the program counter, and `PC + 2` otherwise (including the
taken self-targeting branch, where the loop's advance heuristic fires). -/
lemma step_branch_generic (cpu : CPU) (hex off r2 : Nat) (oc : OpCode) (cond : Bool)
    (hdec : matchOpHexCodeWithOpCode hex = some oc)
    (hmode : oc.addressingMode = .Relative)
    (hop : ¬ oc.operation = .BRK)
    (hexec : ∀ i : StepInfos, i.opCode = oc →
      executeOpCode cpu i = some (cpu.branch i cond))
    (h0 : cpu.memoryRead cpu.programCounter = some hex)
    (h1 : cpu.memoryRead ((cpu.programCounter + 1) % 65536) = some off)
    (h2 : cpu.memoryRead ((cpu.programCounter + 2) % 65536) = some r2) :
    ∃ c, step cpu = .next c ∧
      c.programCounter =
        if cond = true ∧ relTarget cpu.programCounter off ≠ cpu.programCounter
        then relTarget cpu.programCounter off
        else (cpu.programCounter + 2) % 65536 := by
  have htrace : traceMemoryReads cpu
      ⟨hex, oc, relTarget cpu.programCounter off⟩ = some () := by
    unfold traceMemoryReads
    rw [h1, h2]
    simp only [bind_some_eq, hmode, Option.pure_def]
  have hb : getNumberOfBytesReadForOperation AddressingMode.Relative = 2 := rfl
  have hred : step cpu =
      if cpu.programCounter =
          (cpu.branch ⟨hex, oc, relTarget cpu.programCounter off⟩ cond).programCounter
      then .next { cpu.branch ⟨hex, oc, relTarget cpu.programCounter off⟩ cond with
        programCounter :=
          ((cpu.branch ⟨hex, oc, relTarget cpu.programCounter off⟩ cond).programCounter + 2)
            % 65536 }
      else .next (cpu.branch ⟨hex, oc, relTarget cpu.programCounter off⟩ cond) := by
    simp only [step, h0, hdec, hmode, getOperandAddress_relative cpu cpu.programCounter off h1,
      htrace, if_neg hop, hexec ⟨hex, oc, relTarget cpu.programCounter off⟩ rfl, hb]
  rw [hred]
  unfold CPU.branch
  cases hcond : cond
  · rw [if_neg Bool.false_ne_true]
    rw [if_pos rfl]
    exact ⟨_, rfl, by simp⟩
  · rw [if_pos rfl]
    by_cases hpc : relTarget cpu.programCounter off = cpu.programCounter
    · rw [if_pos (by simp [hpc])]
      exact ⟨_, rfl, by simp [hpc]⟩
    · rw [if_neg (by simp; exact fun h => hpc h.symm)]
      exact ⟨_, rfl, by simp [hpc]⟩


/-- Machine executing a taken BCS whose Relative offset is `0xFE`, so the
branch target is the instruction's own address: carry set, `0xB0 0xFE` at
`0x0600`. -/
def cexCpu : CPU :=
  { registerA := 0, registerX := 0, registerY := 0, stackPointer := 0xFD,
    statusFlags := 0x25, programCounter := 0x600,
    bus := { rom := rom0, memory := fun a =>
      if a = 0x600 then 0xB0 else if a = 0x601 then 0xFE else 0 } }

/-- Counterexample to C5 as stated: at `cexCpu` the branch condition holds
and the Relative target is the pre-step `PC` itself (`0x0600`), yet the
post-step program counter is `0x0602`, because `Run` advances the program
counter whenever the dispatched operation left it unmoved; so a taken branch
does not always land on its Relative target, and the taken and not-taken
outcomes coincide here. -/
theorem branch_post_pc_counterexample :
    cexCpu.isFlagSet CARRY_FLAG = true ∧
    cexCpu.memoryRead (cexCpu.programCounter + 1) = some 0xFE ∧
    relTarget cexCpu.programCounter 0xFE = cexCpu.programCounter ∧
    stepPC (step cexCpu) = some 0x602 ∧ (0x602 : Nat) ≠ 0x600 := by
  refine ⟨by decide, by decide, by decide, by decide, by decide⟩

/-- C5 as amended: after a branch instruction the program counter is `PC+2`
when the condition is false, and the Relative target when the condition is
true, except that a taken branch whose target equals the pre-step `PC`
(offset `0xFE`) also falls through to `PC+2`; hence the outcomes differ only
when (not exactly when) the branch is taken. -/
theorem branch_post_pc (cpu : CPU) (hex off r2 : Nat)
    (hhex : hex = 0x90 ∨ hex = 0xB0 ∨ hex = 0xF0 ∨ hex = 0xD0 ∨
            hex = 0x30 ∨ hex = 0x10 ∨ hex = 0x50 ∨ hex = 0x70)
    (h0 : cpu.memoryRead cpu.programCounter = some hex)
    (h1 : cpu.memoryRead ((cpu.programCounter + 1) % 65536) = some off)
    (h2 : cpu.memoryRead ((cpu.programCounter + 2) % 65536) = some r2) :
    ∃ c, step cpu = .next c ∧
      c.programCounter =
        if branchTakenHex hex cpu = true ∧ relTarget cpu.programCounter off ≠ cpu.programCounter
        then relTarget cpu.programCounter off
        else (cpu.programCounter + 2) % 65536 := by
  rcases hhex with rfl | rfl | rfl | rfl | rfl | rfl | rfl | rfl
  · exact step_branch_generic cpu 0x90 off r2 ⟨.BCC, .Relative, 2⟩ (!cpu.isFlagSet CARRY_FLAG)
      rfl rfl (by decide) (fun i hi => by simp [executeOpCode, hi, CPU.bcc]) h0 h1 h2
  · exact step_branch_generic cpu 0xB0 off r2 ⟨.BCS, .Relative, 2⟩ (cpu.isFlagSet CARRY_FLAG)
      rfl rfl (by decide) (fun i hi => by simp [executeOpCode, hi, CPU.bcs]) h0 h1 h2
  · exact step_branch_generic cpu 0xF0 off r2 ⟨.BEQ, .Relative, 2⟩ (cpu.isFlagSet ZERO_FLAG)
      rfl rfl (by decide) (fun i hi => by simp [executeOpCode, hi, CPU.beq]) h0 h1 h2
  · exact step_branch_generic cpu 0xD0 off r2 ⟨.BNE, .Relative, 2⟩ (!cpu.isFlagSet ZERO_FLAG)
      rfl rfl (by decide) (fun i hi => by simp [executeOpCode, hi, CPU.bne]) h0 h1 h2
  · exact step_branch_generic cpu 0x30 off r2 ⟨.BMI, .Relative, 2⟩ (cpu.isFlagSet NEGATIVE_FLAG)
      rfl rfl (by decide) (fun i hi => by simp [executeOpCode, hi, CPU.bmi]) h0 h1 h2
  · exact step_branch_generic cpu 0x10 off r2 ⟨.BPL, .Relative, 2⟩ (!cpu.isFlagSet NEGATIVE_FLAG)
      rfl rfl (by decide) (fun i hi => by simp [executeOpCode, hi, CPU.bpl]) h0 h1 h2
  · exact step_branch_generic cpu 0x50 off r2 ⟨.BVC, .Relative, 2⟩ (!cpu.isFlagSet OVERFLOW_FLAG)
      rfl rfl (by decide) (fun i hi => by simp [executeOpCode, hi, CPU.bvc]) h0 h1 h2
  · exact step_branch_generic cpu 0x70 off r2 ⟨.BVS, .Relative, 2⟩ (cpu.isFlagSet OVERFLOW_FLAG)
      rfl rfl (by decide) (fun i hi => by simp [executeOpCode, hi, CPU.bvs]) h0 h1 h2

/-- Machine executing a not-taken BNE (`0xD0 0x05` at `0x0600` with the zero
flag set), for the C5 witness. -/
def wBranch : CPU :=
  { registerA := 0, registerX := 0, registerY := 0, stackPointer := 0xFD,
    statusFlags := 0x26, programCounter := 0x600,
    bus := { rom := rom0, memory := fun a =>
      if a = 0x600 then 0xD0 else if a = 0x601 then 5 else 0 } }

/-- Witness for the amended C5: the not-taken BNE at `wBranch` falls through
to `0x0602`. -/
theorem branch_post_pc_witness : stepPC (step wBranch) = some 0x602 := by
  obtain ⟨c, hc, hpc⟩ := branch_post_pc wBranch 0xD0 5 0
    (Or.inr (Or.inr (Or.inr (Or.inl rfl)))) (by rfl) (by rfl) (by rfl)
  rw [hc]
  simp only [stepPC, hpc]
  rfl


/-- Monadic bind on `Option` is `Option.bind`. -/
lemma bind_def {a b : Type} (x : Option a) (f : a → Option b) : x >>= f = x.bind f := rfl

/-- Preservation of the always-set status bit 5 by an operation: every
successful execution keeps bit 5 of `P` set. -/
def PreservesBit5 (f : CPU → StepInfos → Option CPU) : Prop :=
  ∀ cpu i c', f cpu i = some c' → cpu.statusFlags.testBit 5 = true →
    c'.statusFlags.testBit 5 = true

/-- Setting or clearing a flag whose bit 5 is clear leaves bit 5 of the
status untouched. -/
lemma tb5_setFlagToValue (c : CPU) (f : Nat) (v : Bool) (hf : f.testBit 5 = false) :
    ((c.setFlagToValue f v).statusFlags).testBit 5 = c.statusFlags.testBit 5 := by
  unfold CPU.setFlagToValue
  cases v
  · simp [Nat.testBit_and, Nat.testBit_xor, hf, show Nat.testBit 255 5 = true from rfl]
  · simp [Nat.testBit_or, hf]

/-- Bit 5 through a carry-flag update. -/
lemma tb5_carry (c : CPU) (v : Bool) :
    ((c.setFlagToValue CARRY_FLAG v).statusFlags).testBit 5 = c.statusFlags.testBit 5 :=
  tb5_setFlagToValue c _ v (by decide)

/-- Bit 5 through a zero-flag update. -/
lemma tb5_zero (c : CPU) (v : Bool) :
    ((c.setFlagToValue ZERO_FLAG v).statusFlags).testBit 5 = c.statusFlags.testBit 5 :=
  tb5_setFlagToValue c _ v (by decide)

/-- Bit 5 through an interrupt-disable update. -/
lemma tb5_interrupt (c : CPU) (v : Bool) :
    ((c.setFlagToValue INTERRUPT_DISABLE_FLAG v).statusFlags).testBit 5 =
      c.statusFlags.testBit 5 :=
  tb5_setFlagToValue c _ v (by decide)

/-- Bit 5 through a decimal-flag update. -/
lemma tb5_decimal (c : CPU) (v : Bool) :
    ((c.setFlagToValue DECIMAL_FLAG v).statusFlags).testBit 5 = c.statusFlags.testBit 5 :=
  tb5_setFlagToValue c _ v (by decide)

/-- Bit 5 through a break-flag update. -/
lemma tb5_break (c : CPU) (v : Bool) :
    ((c.setFlagToValue BREAK_FLAG v).statusFlags).testBit 5 = c.statusFlags.testBit 5 :=
  tb5_setFlagToValue c _ v (by decide)

/-- Bit 5 through an overflow-flag update. -/
lemma tb5_overflow (c : CPU) (v : Bool) :
    ((c.setFlagToValue OVERFLOW_FLAG v).statusFlags).testBit 5 = c.statusFlags.testBit 5 :=
  tb5_setFlagToValue c _ v (by decide)

/-- Bit 5 through a negative-flag update. -/
lemma tb5_negative (c : CPU) (v : Bool) :
    ((c.setFlagToValue NEGATIVE_FLAG v).statusFlags).testBit 5 = c.statusFlags.testBit 5 :=
  tb5_setFlagToValue c _ v (by decide)

/-- Bit 5 through the combined Z/N update. -/
lemma tb5_setzn (c : CPU) (r : Nat) :
    ((c.setZeroFlagAndNegativeFlagForResult r).statusFlags).testBit 5 =
      c.statusFlags.testBit 5 := by
  unfold CPU.setZeroFlagAndNegativeFlagForResult
  rw [tb5_negative, tb5_zero]

/-- Forcing the second break flag on sets bit 5 unconditionally. -/
lemma tb5_setBreak2_true (c : CPU) :
    ((c.setFlagToValue BREAK_2_FLAG true).statusFlags).testBit 5 = true := by
  unfold CPU.setFlagToValue
  simp [Nat.testBit_or, BREAK_2_FLAG, show Nat.testBit 32 5 = true from rfl]

/-- A memory write never changes the status register. -/
lemma sf_memoryWrite {cpu : CPU} {a d : Nat} {c' : CPU} (h : cpu.memoryWrite a d = some c') :
    c'.statusFlags = cpu.statusFlags := by
  simp only [CPU.memoryWrite] at h
  rw [Option.map_eq_some'] at h
  obtain ⟨b, _, rfl⟩ := h
  rfl

/-- A stack push never changes the status register. -/
lemma sf_pushStack {cpu : CPU} {v : Nat} {c' : CPU} (h : cpu.pushStack v = some c') :
    c'.statusFlags = cpu.statusFlags := by
  simp only [CPU.pushStack] at h
  rw [Option.map_eq_some'] at h
  obtain ⟨c1, h1, rfl⟩ := h
  show c1.statusFlags = cpu.statusFlags
  exact sf_memoryWrite h1

/-- A 16-bit stack push never changes the status register. -/
lemma sf_pushStackU16 {cpu : CPU} {v : Nat} {c' : CPU} (h : cpu.pushStackU16 v = some c') :
    c'.statusFlags = cpu.statusFlags := by
  simp only [CPU.pushStackU16, bind_def] at h
  rw [Option.bind_eq_some] at h
  obtain ⟨c1, h1, h2⟩ := h
  rw [sf_pushStack h2, sf_pushStack h1]

/-- A stack pull never changes the status register of the machine it
returns. -/
lemma sf_pullStack {cpu : CPU} {p : Nat × CPU} (h : cpu.pullStack = some p) :
    p.2.statusFlags = cpu.statusFlags := by
  simp only [CPU.pullStack] at h
  rw [Option.map_eq_some'] at h
  obtain ⟨v, _, rfl⟩ := h
  rfl

/-- A 16-bit stack pull never changes the status register of the machine it
returns. -/
lemma sf_pullStackU16 {cpu : CPU} {p : Nat × CPU} (h : cpu.pullStackU16 = some p) :
    p.2.statusFlags = cpu.statusFlags := by
  simp only [CPU.pullStackU16, bind_def, Option.pure_def] at h
  rw [Option.bind_eq_some] at h
  obtain ⟨p0, h0, h⟩ := h
  rw [Option.bind_eq_some] at h
  obtain ⟨p1, h1, h⟩ := h
  obtain rfl := Option.some_inj.mp h
  have e1 := sf_pullStack h0
  have e2 := sf_pullStack h1
  simp only []
  rw [e2, e1]

/-- The branch helper never changes the status register. -/
lemma sf_branch (cpu : CPU) (i : StepInfos) (cond : Bool) :
    (cpu.branch i cond).statusFlags = cpu.statusFlags := by
  unfold CPU.branch
  split <;> rfl


/-- Bit 5 is preserved by `adc`. -/
lemma bit5_adc : PreservesBit5 CPU.adc := by
  intro cpu i c' h hb
  simp only [CPU.adc] at h
  rw [Option.map_eq_some'] at h
  obtain ⟨m, _, rfl⟩ := h
  simp only [CPU.adcOnOperand, tb5_setzn, tb5_overflow, tb5_carry]
  exact hb

/-- Bit 5 is preserved by `sbc`. -/
lemma bit5_sbc : PreservesBit5 CPU.sbc := by
  intro cpu i c' h hb
  simp only [CPU.sbc] at h
  rw [Option.map_eq_some'] at h
  obtain ⟨m, _, rfl⟩ := h
  simp only [CPU.sbcOnOperand, tb5_setzn, tb5_overflow, tb5_carry]
  exact hb

/-- Bit 5 is preserved by `and`. -/
lemma bit5_and : PreservesBit5 CPU.and := by
  intro cpu i c' h hb
  simp only [CPU.and] at h
  rw [Option.map_eq_some'] at h
  obtain ⟨m, _, rfl⟩ := h
  simp only [tb5_setzn]
  exact hb

/-- Bit 5 is preserved by `eor`. -/
lemma bit5_eor : PreservesBit5 CPU.eor := by
  intro cpu i c' h hb
  simp only [CPU.eor] at h
  rw [Option.map_eq_some'] at h
  obtain ⟨m, _, rfl⟩ := h
  simp only [tb5_setzn]
  exact hb

/-- Bit 5 is preserved by `lda`. -/
lemma bit5_lda : PreservesBit5 CPU.lda := by
  intro cpu i c' h hb
  simp only [CPU.lda] at h
  rw [Option.map_eq_some'] at h
  obtain ⟨m, _, rfl⟩ := h
  simp only [tb5_setzn]
  exact hb

/-- Bit 5 is preserved by `ldx`. -/
lemma bit5_ldx : PreservesBit5 CPU.ldx := by
  intro cpu i c' h hb
  simp only [CPU.ldx] at h
  rw [Option.map_eq_some'] at h
  obtain ⟨m, _, rfl⟩ := h
  simp only [tb5_setzn]
  exact hb

/-- Bit 5 is preserved by `ldy`. -/
lemma bit5_ldy : PreservesBit5 CPU.ldy := by
  intro cpu i c' h hb
  simp only [CPU.ldy] at h
  rw [Option.map_eq_some'] at h
  obtain ⟨m, _, rfl⟩ := h
  simp only [tb5_setzn]
  exact hb

/-- Bit 5 is preserved by `ora`. -/
lemma bit5_ora : PreservesBit5 CPU.ora := by
  intro cpu i c' h hb
  simp only [CPU.ora] at h
  rw [Option.map_eq_some'] at h
  obtain ⟨m, _, rfl⟩ := h
  simp only [tb5_setzn]
  exact hb

/-- Bit 5 is preserved by `atx`. -/
lemma bit5_atx : PreservesBit5 CPU.atx := by
  intro cpu i c' h hb
  simp only [CPU.atx] at h
  rw [Option.map_eq_some'] at h
  obtain ⟨m, _, rfl⟩ := h
  simp only [tb5_setzn]
  exact hb

/-- Bit 5 is preserved by `lax`. -/
lemma bit5_lax : PreservesBit5 CPU.lax := by
  intro cpu i c' h hb
  simp only [CPU.lax] at h
  rw [Option.map_eq_some'] at h
  obtain ⟨m, _, rfl⟩ := h
  simp only [tb5_setzn]
  exact hb

/-- Bit 5 is preserved by `lar`. -/
lemma bit5_lar : PreservesBit5 CPU.lar := by
  intro cpu i c' h hb
  simp only [CPU.lar] at h
  rw [Option.map_eq_some'] at h
  obtain ⟨m, _, rfl⟩ := h
  simp only [tb5_setzn]
  exact hb

/-- Bit 5 is preserved by `bit`. -/
lemma bit5_bit : PreservesBit5 CPU.bit := by
  intro cpu i c' h hb
  simp only [CPU.bit] at h
  rw [Option.map_eq_some'] at h
  obtain ⟨m, _, rfl⟩ := h
  simp only [tb5_overflow, tb5_negative, tb5_zero]
  exact hb

/-- Bit 5 is preserved by `aac`. -/
lemma bit5_aac : PreservesBit5 CPU.aac := by
  intro cpu i c' h hb
  simp only [CPU.aac] at h
  rw [Option.map_eq_some'] at h
  obtain ⟨m, _, rfl⟩ := h
  simp only [tb5_carry, tb5_setzn]
  exact hb

/-- Bit 5 is preserved by `arr`. -/
lemma bit5_arr : PreservesBit5 CPU.arr := by
  intro cpu i c' h hb
  simp only [CPU.arr] at h
  rw [Option.map_eq_some'] at h
  obtain ⟨m, _, rfl⟩ := h
  simp only [tb5_overflow, tb5_carry, tb5_setzn]
  exact hb

/-- Bit 5 is preserved by `asr`. -/
lemma bit5_asr : PreservesBit5 CPU.asr := by
  intro cpu i c' h hb
  simp only [CPU.asr] at h
  rw [Option.map_eq_some'] at h
  obtain ⟨m, _, rfl⟩ := h
  simp only [tb5_setzn, tb5_carry]
  exact hb

/-- Bit 5 is preserved by `clc`. -/
lemma bit5_clc : PreservesBit5 CPU.clc := by
  intro cpu i c' h hb
  simp only [CPU.clc] at h
  obtain rfl := Option.some_inj.mp h
  simp only [tb5_carry]
  exact hb

/-- Bit 5 is preserved by `cld`. -/
lemma bit5_cld : PreservesBit5 CPU.cld := by
  intro cpu i c' h hb
  simp only [CPU.cld] at h
  obtain rfl := Option.some_inj.mp h
  simp only [tb5_decimal]
  exact hb

/-- Bit 5 is preserved by `cli`. -/
lemma bit5_cli : PreservesBit5 CPU.cli := by
  intro cpu i c' h hb
  simp only [CPU.cli] at h
  obtain rfl := Option.some_inj.mp h
  simp only [tb5_interrupt]
  exact hb

/-- Bit 5 is preserved by `clv`. -/
lemma bit5_clv : PreservesBit5 CPU.clv := by
  intro cpu i c' h hb
  simp only [CPU.clv] at h
  obtain rfl := Option.some_inj.mp h
  simp only [tb5_overflow]
  exact hb

/-- Bit 5 is preserved by `sec`. -/
lemma bit5_sec : PreservesBit5 CPU.sec := by
  intro cpu i c' h hb
  simp only [CPU.sec] at h
  obtain rfl := Option.some_inj.mp h
  simp only [tb5_carry]
  exact hb

/-- Bit 5 is preserved by `sed`. -/
lemma bit5_sed : PreservesBit5 CPU.sed := by
  intro cpu i c' h hb
  simp only [CPU.sed] at h
  obtain rfl := Option.some_inj.mp h
  simp only [tb5_decimal]
  exact hb

/-- Bit 5 is preserved by `sei`. -/
lemma bit5_sei : PreservesBit5 CPU.sei := by
  intro cpu i c' h hb
  simp only [CPU.sei] at h
  obtain rfl := Option.some_inj.mp h
  simp only [tb5_interrupt]
  exact hb

/-- Bit 5 is preserved by `bcc`. -/
lemma bit5_bcc : PreservesBit5 CPU.bcc := by
  intro cpu i c' h hb
  simp only [CPU.bcc] at h
  obtain rfl := Option.some_inj.mp h
  rw [sf_branch]
  exact hb

/-- Bit 5 is preserved by `bcs`. -/
lemma bit5_bcs : PreservesBit5 CPU.bcs := by
  intro cpu i c' h hb
  simp only [CPU.bcs] at h
  obtain rfl := Option.some_inj.mp h
  rw [sf_branch]
  exact hb

/-- Bit 5 is preserved by `beq`. -/
lemma bit5_beq : PreservesBit5 CPU.beq := by
  intro cpu i c' h hb
  simp only [CPU.beq] at h
  obtain rfl := Option.some_inj.mp h
  rw [sf_branch]
  exact hb

/-- Bit 5 is preserved by `bmi`. -/
lemma bit5_bmi : PreservesBit5 CPU.bmi := by
  intro cpu i c' h hb
  simp only [CPU.bmi] at h
  obtain rfl := Option.some_inj.mp h
  rw [sf_branch]
  exact hb

/-- Bit 5 is preserved by `bne`. -/
lemma bit5_bne : PreservesBit5 CPU.bne := by
  intro cpu i c' h hb
  simp only [CPU.bne] at h
  obtain rfl := Option.some_inj.mp h
  rw [sf_branch]
  exact hb

/-- Bit 5 is preserved by `bpl`. -/
lemma bit5_bpl : PreservesBit5 CPU.bpl := by
  intro cpu i c' h hb
  simp only [CPU.bpl] at h
  obtain rfl := Option.some_inj.mp h
  rw [sf_branch]
  exact hb

/-- Bit 5 is preserved by `bvc`. -/
lemma bit5_bvc : PreservesBit5 CPU.bvc := by
  intro cpu i c' h hb
  simp only [CPU.bvc] at h
  obtain rfl := Option.some_inj.mp h
  rw [sf_branch]
  exact hb

/-- Bit 5 is preserved by `bvs`. -/
lemma bit5_bvs : PreservesBit5 CPU.bvs := by
  intro cpu i c' h hb
  simp only [CPU.bvs] at h
  obtain rfl := Option.some_inj.mp h
  rw [sf_branch]
  exact hb

/-- Bit 5 is preserved by `dex`. -/
lemma bit5_dex : PreservesBit5 CPU.dex := by
  intro cpu i c' h hb
  simp only [CPU.dex] at h
  obtain rfl := Option.some_inj.mp h
  simp only [tb5_setzn]
  exact hb

/-- Bit 5 is preserved by `dey`. -/
lemma bit5_dey : PreservesBit5 CPU.dey := by
  intro cpu i c' h hb
  simp only [CPU.dey] at h
  obtain rfl := Option.some_inj.mp h
  simp only [tb5_setzn]
  exact hb

/-- Bit 5 is preserved by `inx`. -/
lemma bit5_inx : PreservesBit5 CPU.inx := by
  intro cpu i c' h hb
  simp only [CPU.inx] at h
  obtain rfl := Option.some_inj.mp h
  simp only [tb5_setzn]
  exact hb

/-- Bit 5 is preserved by `iny`. -/
lemma bit5_iny : PreservesBit5 CPU.iny := by
  intro cpu i c' h hb
  simp only [CPU.iny] at h
  obtain rfl := Option.some_inj.mp h
  simp only [tb5_setzn]
  exact hb

/-- Bit 5 is preserved by `tax`. -/
lemma bit5_tax : PreservesBit5 CPU.tax := by
  intro cpu i c' h hb
  simp only [CPU.tax] at h
  obtain rfl := Option.some_inj.mp h
  simp only [tb5_setzn]
  exact hb

/-- Bit 5 is preserved by `tay`. -/
lemma bit5_tay : PreservesBit5 CPU.tay := by
  intro cpu i c' h hb
  simp only [CPU.tay] at h
  obtain rfl := Option.some_inj.mp h
  simp only [tb5_setzn]
  exact hb

/-- Bit 5 is preserved by `tsx`. -/
lemma bit5_tsx : PreservesBit5 CPU.tsx := by
  intro cpu i c' h hb
  simp only [CPU.tsx] at h
  obtain rfl := Option.some_inj.mp h
  simp only [tb5_setzn]
  exact hb

/-- Bit 5 is preserved by `txa`. -/
lemma bit5_txa : PreservesBit5 CPU.txa := by
  intro cpu i c' h hb
  simp only [CPU.txa] at h
  obtain rfl := Option.some_inj.mp h
  simp only [tb5_setzn]
  exact hb

/-- Bit 5 is preserved by `tya`. -/
lemma bit5_tya : PreservesBit5 CPU.tya := by
  intro cpu i c' h hb
  simp only [CPU.tya] at h
  obtain rfl := Option.some_inj.mp h
  simp only [tb5_setzn]
  exact hb

/-- Bit 5 is preserved by `txs`. -/
lemma bit5_txs : PreservesBit5 CPU.txs := by
  intro cpu i c' h hb
  simp only [CPU.txs] at h
  obtain rfl := Option.some_inj.mp h
  exact hb

/-- Bit 5 is preserved by `jmp`. -/
lemma bit5_jmp : PreservesBit5 CPU.jmp := by
  intro cpu i c' h hb
  simp only [CPU.jmp] at h
  obtain rfl := Option.some_inj.mp h
  exact hb

/-- Bit 5 is preserved by `nop`. -/
lemma bit5_nop : PreservesBit5 CPU.nop := by
  intro cpu i c' h hb
  simp only [CPU.nop] at h
  obtain rfl := Option.some_inj.mp h
  exact hb

/-- Bit 5 is preserved by `dop`. -/
lemma bit5_dop : PreservesBit5 CPU.dop := by
  intro cpu i c' h hb
  simp only [CPU.dop] at h
  obtain rfl := Option.some_inj.mp h
  exact hb

/-- Bit 5 is preserved by `top`. -/
lemma bit5_top : PreservesBit5 CPU.top := by
  intro cpu i c' h hb
  simp only [CPU.top] at h
  obtain rfl := Option.some_inj.mp h
  exact hb

/-- Bit 5 is preserved by `sta`. -/
lemma bit5_sta : PreservesBit5 CPU.sta := by
  intro cpu i c' h hb
  simp only [CPU.sta] at h
  rw [sf_memoryWrite h]
  exact hb

/-- Bit 5 is preserved by `stx`. -/
lemma bit5_stx : PreservesBit5 CPU.stx := by
  intro cpu i c' h hb
  simp only [CPU.stx] at h
  rw [sf_memoryWrite h]
  exact hb

/-- Bit 5 is preserved by `sty`. -/
lemma bit5_sty : PreservesBit5 CPU.sty := by
  intro cpu i c' h hb
  simp only [CPU.sty] at h
  rw [sf_memoryWrite h]
  exact hb

/-- Bit 5 is preserved by `aax`. -/
lemma bit5_aax : PreservesBit5 CPU.aax := by
  intro cpu i c' h hb
  simp only [CPU.aax] at h
  rw [sf_memoryWrite h]
  exact hb

/-- Bit 5 is preserved by `axa`. -/
lemma bit5_axa : PreservesBit5 CPU.axa := by
  intro cpu i c' h hb
  simp only [CPU.axa] at h
  rw [sf_memoryWrite h]
  exact hb

/-- Bit 5 is preserved by `sxa`. -/
lemma bit5_sxa : PreservesBit5 CPU.sxa := by
  intro cpu i c' h hb
  simp only [CPU.sxa] at h
  rw [sf_memoryWrite h]
  exact hb

/-- Bit 5 is preserved by `sya`. -/
lemma bit5_sya : PreservesBit5 CPU.sya := by
  intro cpu i c' h hb
  simp only [CPU.sya] at h
  rw [sf_memoryWrite h]
  exact hb

/-- Bit 5 is preserved by `xas`. -/
lemma bit5_xas : PreservesBit5 CPU.xas := by
  intro cpu i c' h hb
  simp only [CPU.xas] at h
  rw [sf_memoryWrite h]
  exact hb

/-- Bit 5 is preserved by `asl`. -/
lemma bit5_asl : PreservesBit5 CPU.asl := by
  intro cpu i c' h hb
  simp only [CPU.asl, bind_def, Option.pure_def] at h
  split at h
  · obtain rfl := Option.some_inj.mp h
    simp only [tb5_setzn, tb5_carry]
    exact hb
  · simp only [Option.bind_eq_some, Option.some.injEq] at h
    obtain ⟨m, hm, c1, h1, rfl⟩ := h
    simp only [tb5_setzn]
    rw [sf_memoryWrite h1, tb5_carry]
    exact hb

/-- Bit 5 is preserved by `lsr`. -/
lemma bit5_lsr : PreservesBit5 CPU.lsr := by
  intro cpu i c' h hb
  simp only [CPU.lsr, bind_def, Option.pure_def] at h
  split at h
  · obtain rfl := Option.some_inj.mp h
    simp only [tb5_setzn, tb5_carry]
    exact hb
  · simp only [Option.bind_eq_some, Option.some.injEq] at h
    obtain ⟨m, hm, c1, h1, rfl⟩ := h
    simp only [tb5_setzn]
    rw [sf_memoryWrite h1, tb5_carry]
    exact hb

/-- Bit 5 is preserved by `rol`. -/
lemma bit5_rol : PreservesBit5 CPU.rol := by
  intro cpu i c' h hb
  simp only [CPU.rol, bind_def, Option.pure_def] at h
  split at h
  · obtain rfl := Option.some_inj.mp h
    simp only [tb5_setzn, tb5_carry]
    exact hb
  · simp only [Option.bind_eq_some, Option.some.injEq] at h
    obtain ⟨m, hm, c1, h1, rfl⟩ := h
    simp only [tb5_setzn]
    rw [sf_memoryWrite h1, tb5_carry]
    exact hb

/-- Bit 5 is preserved by `ror`. -/
lemma bit5_ror : PreservesBit5 CPU.ror := by
  intro cpu i c' h hb
  simp only [CPU.ror, bind_def, Option.pure_def] at h
  split at h
  · obtain rfl := Option.some_inj.mp h
    simp only [tb5_setzn, tb5_carry]
    exact hb
  · simp only [Option.bind_eq_some, Option.some.injEq] at h
    obtain ⟨m, hm, c1, h1, rfl⟩ := h
    simp only [tb5_setzn]
    rw [sf_memoryWrite h1, tb5_carry]
    exact hb

/-- Bit 5 is preserved by the shared `compare` helper. -/
lemma bit5_compare (cpu : CPU) (i : StepInfos) (w : Nat) (c' : CPU)
    (h : cpu.compare i w = some c') (hb : cpu.statusFlags.testBit 5 = true) :
    c'.statusFlags.testBit 5 = true := by
  simp only [CPU.compare] at h
  rw [Option.map_eq_some'] at h
  obtain ⟨m, _, rfl⟩ := h
  simp only [tb5_carry, tb5_setzn]
  exact hb

/-- Bit 5 is preserved by `cmp`. -/
lemma bit5_cmp : PreservesBit5 CPU.cmp := by
  intro cpu i c' h hb
  exact bit5_compare cpu i cpu.registerA c' h hb

/-- Bit 5 is preserved by `cpx`. -/
lemma bit5_cpx : PreservesBit5 CPU.cpx := by
  intro cpu i c' h hb
  exact bit5_compare cpu i cpu.registerX c' h hb

/-- Bit 5 is preserved by `cpy`. -/
lemma bit5_cpy : PreservesBit5 CPU.cpy := by
  intro cpu i c' h hb
  exact bit5_compare cpu i cpu.registerY c' h hb

/-- Bit 5 is preserved by `dec`. -/
lemma bit5_dec : PreservesBit5 CPU.dec := by
  intro cpu i c' h hb
  simp only [CPU.dec, bind_def, Option.pure_def, Option.bind_eq_some, Option.some.injEq] at h
  obtain ⟨m, hm, c1, h1, rfl⟩ := h
  simp only [tb5_setzn]
  rw [sf_memoryWrite h1]
  exact hb

/-- Bit 5 is preserved by `inc`. -/
lemma bit5_inc : PreservesBit5 CPU.inc := by
  intro cpu i c' h hb
  simp only [CPU.inc, bind_def, Option.pure_def, Option.bind_eq_some, Option.some.injEq] at h
  obtain ⟨m, hm, c1, h1, rfl⟩ := h
  simp only [tb5_setzn]
  rw [sf_memoryWrite h1]
  exact hb

/-- Bit 5 is preserved by `dcp`. -/
lemma bit5_dcp : PreservesBit5 CPU.dcp := by
  intro cpu i c' h hb
  simp only [CPU.dcp, bind_def, Option.bind_eq_some] at h
  obtain ⟨m, hm, c1, h1, h2⟩ := h
  exact bit5_compare _ _ _ _ h2 (by rw [sf_memoryWrite h1]; exact hb)

/-- Bit 5 is preserved by `isc`. -/
lemma bit5_isc : PreservesBit5 CPU.isc := by
  intro cpu i c' h hb
  simp only [CPU.isc, bind_def, Option.pure_def, Option.bind_eq_some, Option.some.injEq] at h
  obtain ⟨m, hm, c1, h1, rfl⟩ := h
  simp only [tb5_setzn, tb5_overflow, tb5_carry]
  rw [sf_memoryWrite h1]
  exact hb

/-- Bit 5 is preserved by `rla`. -/
lemma bit5_rla : PreservesBit5 CPU.rla := by
  intro cpu i c' h hb
  simp only [CPU.rla, bind_def, Option.pure_def, Option.bind_eq_some, Option.some.injEq] at h
  obtain ⟨m, hm, c1, h1, rfl⟩ := h
  simp only [tb5_setzn]
  show c1.statusFlags.testBit 5 = true
  rw [sf_memoryWrite h1, tb5_carry]
  exact hb

/-- Bit 5 is preserved by `rra`. -/
lemma bit5_rra : PreservesBit5 CPU.rra := by
  intro cpu i c' h hb
  simp only [CPU.rra, bind_def, Option.pure_def, Option.bind_eq_some, Option.some.injEq] at h
  obtain ⟨m, hm, c1, h1, rfl⟩ := h
  simp only [tb5_setzn, tb5_overflow, tb5_carry]
  rw [sf_memoryWrite h1, tb5_carry]
  exact hb

/-- Bit 5 is preserved by `slo`. -/
lemma bit5_slo : PreservesBit5 CPU.slo := by
  intro cpu i c' h hb
  simp only [CPU.slo, bind_def, Option.pure_def, Option.bind_eq_some, Option.some.injEq] at h
  obtain ⟨m, hm, c1, h1, rfl⟩ := h
  simp only [tb5_setzn]
  show c1.statusFlags.testBit 5 = true
  rw [sf_memoryWrite h1, tb5_carry]
  exact hb

/-- Bit 5 is preserved by `sre`. -/
lemma bit5_sre : PreservesBit5 CPU.sre := by
  intro cpu i c' h hb
  simp only [CPU.sre, bind_def, Option.pure_def, Option.bind_eq_some, Option.some.injEq] at h
  obtain ⟨m, hm, c1, h1, rfl⟩ := h
  simp only [tb5_setzn]
  show c1.statusFlags.testBit 5 = true
  rw [sf_memoryWrite h1, tb5_carry]
  exact hb

/-- Bit 5 is preserved by `axs`. -/
lemma bit5_axs : PreservesBit5 CPU.axs := by
  intro cpu i c' h hb
  simp only [CPU.axs, bind_def, Option.bind_eq_some] at h
  obtain ⟨c1, h1, h2⟩ := h
  rw [sf_memoryWrite h2, sf_memoryWrite h1]
  exact hb

/-- Bit 5 is preserved by `pha`. -/
lemma bit5_pha : PreservesBit5 CPU.pha := by
  intro cpu i c' h hb
  simp only [CPU.pha] at h
  rw [sf_pushStack h]
  exact hb

/-- Bit 5 is preserved by `php`. -/
lemma bit5_php : PreservesBit5 CPU.php := by
  intro cpu i c' h hb
  simp only [CPU.php] at h
  rw [sf_pushStack h]
  exact hb

/-- Bit 5 is preserved by `pla`. -/
lemma bit5_pla : PreservesBit5 CPU.pla := by
  intro cpu i c' h hb
  simp only [CPU.pla] at h
  rw [Option.map_eq_some'] at h
  obtain ⟨p, hp, rfl⟩ := h
  simp only [tb5_setzn]
  show p.2.statusFlags.testBit 5 = true
  rw [sf_pullStack hp]
  exact hb

/-- Bit 5 is forced set by `plp`. -/
lemma bit5_plp : PreservesBit5 CPU.plp := by
  intro cpu i c' h hb
  simp only [CPU.plp] at h
  rw [Option.map_eq_some'] at h
  obtain ⟨p, hp, rfl⟩ := h
  exact tb5_setBreak2_true _

/-- Bit 5 is preserved by `jsr`. -/
lemma bit5_jsr : PreservesBit5 CPU.jsr := by
  intro cpu i c' h hb
  simp only [CPU.jsr, bind_def, Option.pure_def, Option.bind_eq_some, Option.some.injEq] at h
  obtain ⟨c1, h1, rfl⟩ := h
  show c1.statusFlags.testBit 5 = true
  rw [sf_pushStackU16 h1]
  exact hb

/-- Bit 5 is preserved by `rts`. -/
lemma bit5_rts : PreservesBit5 CPU.rts := by
  intro cpu i c' h hb
  simp only [CPU.rts, bind_def, Option.pure_def, Option.bind_eq_some, Option.some.injEq] at h
  obtain ⟨q, hq, rfl⟩ := h
  show q.2.statusFlags.testBit 5 = true
  rw [sf_pullStackU16 hq]
  exact hb

/-- Bit 5 is forced set by `rti`. -/
lemma bit5_rti : PreservesBit5 CPU.rti := by
  intro cpu i c' h hb
  simp only [CPU.rti, bind_def, Option.pure_def, Option.bind_eq_some, Option.some.injEq] at h
  obtain ⟨p, hp, q, hq, rfl⟩ := h
  show q.2.statusFlags.testBit 5 = true
  rw [sf_pullStackU16 hq]
  exact tb5_setBreak2_true _

/-- KIL panics, so it trivially preserves bit 5. -/
lemma bit5_kil : PreservesBit5 CPU.kil := by
  intro cpu i c' h hb
  exact Option.noConfusion h

/-- XAA panics, so it trivially preserves bit 5. -/
lemma bit5_xaa : PreservesBit5 CPU.xaa := by
  intro cpu i c' h hb
  exact Option.noConfusion h


/-- Bit 5 is preserved by every dispatched operation. -/
lemma bit5_executeOpCode (cpu : CPU) (i : StepInfos) (c' : CPU)
    (h : executeOpCode cpu i = some c') (hb : cpu.statusFlags.testBit 5 = true) :
    c'.statusFlags.testBit 5 = true := by
  cases hop : i.opCode.operation <;> simp only [executeOpCode, hop] at h
  · exact bit5_adc _ _ _ h hb
  · exact bit5_and _ _ _ h hb
  · exact bit5_asl _ _ _ h hb
  · exact bit5_bcc _ _ _ h hb
  · exact bit5_bcs _ _ _ h hb
  · exact bit5_beq _ _ _ h hb
  · exact bit5_bit _ _ _ h hb
  · exact bit5_bmi _ _ _ h hb
  · exact bit5_bne _ _ _ h hb
  · exact bit5_bpl _ _ _ h hb
  · obtain rfl := Option.some_inj.mp h
    exact hb
  · exact bit5_bvc _ _ _ h hb
  · exact bit5_bvs _ _ _ h hb
  · exact bit5_clc _ _ _ h hb
  · exact bit5_cld _ _ _ h hb
  · exact bit5_cli _ _ _ h hb
  · exact bit5_clv _ _ _ h hb
  · exact bit5_cmp _ _ _ h hb
  · exact bit5_cpx _ _ _ h hb
  · exact bit5_cpy _ _ _ h hb
  · exact bit5_dec _ _ _ h hb
  · exact bit5_dex _ _ _ h hb
  · exact bit5_dey _ _ _ h hb
  · exact bit5_eor _ _ _ h hb
  · exact bit5_inc _ _ _ h hb
  · exact bit5_inx _ _ _ h hb
  · exact bit5_iny _ _ _ h hb
  · exact bit5_jmp _ _ _ h hb
  · exact bit5_jsr _ _ _ h hb
  · exact bit5_lda _ _ _ h hb
  · exact bit5_ldx _ _ _ h hb
  · exact bit5_ldy _ _ _ h hb
  · exact bit5_lsr _ _ _ h hb
  · exact bit5_nop _ _ _ h hb
  · exact bit5_ora _ _ _ h hb
  · exact bit5_pha _ _ _ h hb
  · exact bit5_php _ _ _ h hb
  · exact bit5_pla _ _ _ h hb
  · exact bit5_plp _ _ _ h hb
  · exact bit5_rol _ _ _ h hb
  · exact bit5_ror _ _ _ h hb
  · exact bit5_rti _ _ _ h hb
  · exact bit5_rts _ _ _ h hb
  · exact bit5_sbc _ _ _ h hb
  · exact bit5_sec _ _ _ h hb
  · exact bit5_sed _ _ _ h hb
  · exact bit5_sei _ _ _ h hb
  · exact bit5_sta _ _ _ h hb
  · exact bit5_stx _ _ _ h hb
  · exact bit5_sty _ _ _ h hb
  · exact bit5_tax _ _ _ h hb
  · exact bit5_tay _ _ _ h hb
  · exact bit5_tsx _ _ _ h hb
  · exact bit5_txa _ _ _ h hb
  · exact bit5_txs _ _ _ h hb
  · exact bit5_tya _ _ _ h hb
  · exact bit5_aac _ _ _ h hb
  · exact bit5_aax _ _ _ h hb
  · exact bit5_arr _ _ _ h hb
  · exact bit5_asr _ _ _ h hb
  · exact bit5_atx _ _ _ h hb
  · exact bit5_axa _ _ _ h hb
  · exact bit5_axs _ _ _ h hb
  · exact bit5_dcp _ _ _ h hb
  · exact bit5_dop _ _ _ h hb
  · exact bit5_isc _ _ _ h hb
  · exact bit5_kil _ _ _ h hb
  · exact bit5_lar _ _ _ h hb
  · exact bit5_lax _ _ _ h hb
  · exact bit5_nop _ _ _ h hb
  · exact bit5_rla _ _ _ h hb
  · exact bit5_rra _ _ _ h hb
  · exact bit5_sbc _ _ _ h hb
  · exact bit5_slo _ _ _ h hb
  · exact bit5_sre _ _ _ h hb
  · exact bit5_sxa _ _ _ h hb
  · exact bit5_sya _ _ _ h hb
  · exact bit5_top _ _ _ h hb
  · exact bit5_xaa _ _ _ h hb
  · exact bit5_xas _ _ _ h hb

/-- One successful loop iteration preserves bit 5 of the status register. -/
lemma bit5_step {cpu c' : CPU} (h : step cpu = .next c')
    (hb : cpu.statusFlags.testBit 5 = true) : c'.statusFlags.testBit 5 = true := by
  cases h0 : cpu.memoryRead cpu.programCounter with
  | none =>
    simp only [step, h0] at h
    exact StepOutcome.noConfusion h
  | some hex =>
    simp only [step, h0] at h
    cases h1 : matchOpHexCodeWithOpCode hex with
    | none =>
      simp only [h1] at h
      exact StepOutcome.noConfusion h
    | some oc =>
      simp only [h1] at h
      cases h2 : cpu.getOperandAddress oc.addressingMode cpu.programCounter with
      | none =>
        simp only [h2] at h
        exact StepOutcome.noConfusion h
      | some addr =>
        simp only [h2] at h
        cases h3 : traceMemoryReads cpu
            { opHexCode := hex, opCode := oc, operandAddress := addr } with
        | none =>
          simp only [h3] at h
          exact StepOutcome.noConfusion h
        | some u =>
          simp only [h3] at h
          by_cases hbrk : oc.operation = Operation.BRK
          · rw [if_pos hbrk] at h
            exact StepOutcome.noConfusion h
          · rw [if_neg hbrk] at h
            cases h4 : executeOpCode cpu
                { opHexCode := hex, opCode := oc, operandAddress := addr } with
            | none =>
              simp only [h4] at h
              exact StepOutcome.noConfusion h
            | some c2 =>
              simp only [h4] at h
              have hb2 := bit5_executeOpCode cpu _ c2 h4 hb
              split at h
              · cases h
                exact hb2
              · cases h
                exact hb2

/-- C8: bit 5 of the status register is 1 in every state the run loop can
reach from reset: reset installs `P = 0x24`, PLP and RTI force the bit after
pulling a status byte, and no other operation clears it. -/
theorem status_bit5_always_set (c0 c : CPU) (h : Reachable (CPU.Reset c0) c) :
    c.statusFlags.testBit 5 = true := by
  induction h with
  | base =>
    simp only [CPU.Reset]
    decide
  | trans h1 h2 ih => exact bit5_step h2 ih

/-- Witness for C8: the reset state itself is reachable and has bit 5 set. -/
theorem status_bit5_always_set_witness : (CPU.Reset cpu0).statusFlags.testBit 5 = true :=
  status_bit5_always_set cpu0 (CPU.Reset cpu0) Reachable.base

end NesEmu
